import Mathlib

/-!
Shallow embedding of the Rentify lead-qualification subsystem:
JSON-file store (`src/utils/JsonStore.js`), conversation and lead models
(`src/models/Conversation.js`, `src/models/Lead.js`), conversation engine
(`src/services/ConversationService.js`), AI reasoning fallback chain
(`src/services/AIReasoningService.js`), analytics cache
(`src/services/AnalyticsService.js`) and the contact-form route
(`src/routes/messageRoutes.js`).

JavaScript strings become `String`, numbers become `Nat`/`Rat`, `null`/missing
values become `Option`, thrown exceptions become `Except String`, and
`Date.now()` becomes an explicit `now : Nat` parameter.  File contents are
`Option (List item)` where `none` models a missing file (ENOENT).
-/

namespace Rentify

/-! ## String helpers (JS `includes`, `toLowerCase`, regex fragments) -/

/-- JS `toLowerCase` (ASCII), written over the character list so that it
reduces in the kernel. -/
def lowerStr (s : String) : String :=
  String.mk (s.toList.map Char.toLower)

/-- Whitespace trimming on both ends of a char list. -/
def trimList (cs : List Char) : List Char :=
  ((cs.dropWhile Char.isWhitespace).reverse.dropWhile Char.isWhitespace).reverse

/-- JS `String.prototype.trim()`. -/
def trimStr (s : String) : String :=
  String.mk (trimList s.toList)

/-- JS `String.prototype.length` (character count). -/
def strLen (s : String) : Nat :=
  s.toList.length

/-- Replace the first occurrence of `pat` in a char list (JS `String.replace`
with a string pattern replaces only the first occurrence). -/
def replaceFirstList (pat repl : List Char) : List Char → List Char
  | [] => []
  | c :: rest =>
    if pat.isPrefixOf (c :: rest) then repl ++ List.drop pat.length (c :: rest)
    else c :: replaceFirstList pat repl rest

/-- JS `s.replace(pat, repl)` with a string pattern. -/
def strReplace (s pat repl : String) : String :=
  String.mk (replaceFirstList pat.toList repl.toList s.toList)

/-- JS `haystack.includes(needle)` on char lists. -/
def listContains (needle : List Char) : List Char → Bool
  | [] => needle.isEmpty
  | c :: rest => needle.isPrefixOf (c :: rest) || listContains needle rest

/-- JS `haystack.includes(needle)`. -/
def strIncludes (hay needle : String) : Bool :=
  listContains needle.toList hay.toList

/-- JS truthiness of a string-or-null value: `null`, `undefined` and `""` are falsy. -/
def truthyS : Option String → Bool
  | none => false
  | some s => !(s == "")

/-- `x || y` on string-or-null values (JS falsy fallback). -/
def orElseS (x : Option String) (y : String) : String :=
  match x with
  | some s => if s == "" then y else s
  | none => y

/-- Digits of a decimal string folded into a `Nat` (JS `parseInt` on a pure digit string). -/
def digitsToNat (cs : List Char) : Nat :=
  cs.foldl (fun n c => n * 10 + (c.toNat - 48)) 0

/-- Insert a thousands separator every three digits, working on the reversed digit list. -/
def commaGroupRev : List Char → List Char
  | a :: b :: c :: d :: rest => a :: b :: c :: ',' :: commaGroupRev (d :: rest)
  | l => l

/-- JS `Number.prototype.toLocaleString()` in the default en locale: `12345 ↦ "12,345"`. -/
def natLocaleString (n : Nat) : String :=
  String.mk ((commaGroupRev (toString n).toList.reverse).reverse)

/-! ## ConversationService regex fragments -/

/-- Character class `[\d,\s]` of the budget regex. -/
def budgetRunChar (c : Char) : Bool :=
  c.isDigit || c == ',' || c.isWhitespace

/-- Capture group of `/[Rr]?\s*(\d[\d,\s]*)/`: from the first digit of the string,
the maximal run of digit/comma/whitespace characters. -/
def budgetCapture : List Char → Option (List Char)
  | [] => none
  | c :: rest =>
    if c.isDigit then some (c :: rest.takeWhile budgetRunChar) else budgetCapture rest

/-- `extractBudget` from `ConversationService.js`: match `/[Rr]?\s*(\d[\d,\s]*)/`,
strip commas/whitespace from the capture, accept amounts in `[1000, 100000]`
and format as `R` followed by the locale string. -/
def extractBudget (message : String) : Option String :=
  match budgetCapture message.toList with
  | none => none
  | some cap =>
    let amount := digitsToNat (cap.filter Char.isDigit)
    if 1000 ≤ amount && amount ≤ 100000 then some ("R" ++ natLocaleString amount)
    else none

/-- Case-insensitive list-prefix test: the pattern is lowercase, the haystack
character is lowered before comparison (models a `/i` regex literal). -/
def isCIPrefix : List Char → List Char → Bool
  | [], _ => true
  | _ :: _, [] => false
  | a :: as, b :: bs => (a == b.toLower) && isCIPrefix as bs

/-- Alternatives of `/(?:in|at|near|around|looking for|area|suburb|city|town)/gi`
in source order. -/
def locationWords : List (List Char) :=
  ["in", "at", "near", "around", "looking for", "area", "suburb", "city", "town"].map
    String.toList

/-- Length of the first location word matching at the head of `cs`
(`0` when none matches; every word is non-empty). -/
def firstWordLen (cs : List Char) : Nat :=
  match locationWords.find? (fun w => !w.isEmpty && isCIPrefix w cs) with
  | some w => w.length
  | none => 0

/-- Global case-insensitive removal of the location stop words, scanning left to
right and resuming after each removed match (JS `String.replace` with `/g`).
Structural recursion on a fuel argument so the definition reduces in the
kernel; every step consumes at least one character, so fuel `cs.length`
is always sufficient. -/
def removeLocationWordsFuel : Nat → List Char → List Char
  | 0, cs => cs
  | _ + 1, [] => []
  | fuel + 1, c :: rest =>
    let k := firstWordLen (c :: rest)
    if k = 0 then c :: removeLocationWordsFuel fuel rest
    else removeLocationWordsFuel fuel (List.drop k (c :: rest))

def removeLocationWords (cs : List Char) : List Char :=
  removeLocationWordsFuel cs.length cs

/-- JS `s.charAt(0).toUpperCase() + s.slice(1).toLowerCase()`. -/
def capFirstLowerRest (s : String) : String :=
  match s.toList with
  | [] => ""
  | c :: rest => String.mk (c.toUpper :: rest.map Char.toLower)

/-- `extractLocation` from `ConversationService.js`. -/
def extractLocation (message : String) : Option String :=
  let cleaned := trimStr (String.mk (removeLocationWords message.toList))
  if 3 ≤ strLen cleaned && strLen cleaned ≤ 50 then some (capFirstLowerRest cleaned)
  else none

/-- `\s+` followed by pattern `b`: one or more whitespace characters, then `b`. -/
def wsThen (b : List Char) : List Char → Bool
  | [] => false
  | c :: rest => c.isWhitespace && (b.isPrefixOf rest || wsThen b rest)

/-- Unanchored test of `a\s+b` (e.g. `/next\s+week/i` on a lowered string). -/
def containsWsSeq (a b : List Char) : List Char → Bool
  | [] => false
  | c :: rest =>
    (a.isPrefixOf (c :: rest) && wsThen b (List.drop a.length (c :: rest)))
      || containsWsSeq a b rest

/-- Month names searched by `extractMoveIn`. -/
def MONTHS : List String :=
  ["january", "february", "march", "april", "may", "june",
   "july", "august", "september", "october", "november", "december"]

/-- JS `s.charAt(0).toUpperCase() + s.slice(1)`. -/
def capitalizeWord (s : String) : String :=
  match s.toList with
  | [] => ""
  | c :: rest => String.mk (c.toUpper :: rest)

/-- `extractMoveIn` from `ConversationService.js`. -/
def extractMoveIn (message : String) : Option String :=
  let lower := trimStr (lowerStr message)
  if ["asap", "immediately", "urgent"].any (fun p => strIncludes lower p) then some "ASAP"
  else if containsWsSeq "next".toList "week".toList lower.toList then some "Next week"
  else if containsWsSeq "next".toList "month".toList lower.toList then some "Next month"
  else if containsWsSeq "this".toList "month".toList lower.toList then some "This month"
  else
    match MONTHS.find? (fun m => strIncludes lower m) with
    | some m => some (capitalizeWord m ++ " 2026")
    | none => if strLen lower ≤ 20 then some (trimStr message) else none

/-- Keywords that trigger human handoff (`HANDOFF_TRIGGERS`). -/
def HANDOFF_TRIGGERS : List String :=
  ["human", "agent", "person", "speak to someone", "call me",
   "complaint", "problem", "issue", "angry", "frustrated",
   "legal", "lawyer", "court", "sue"]

/-- `shouldHandoff` from `ConversationService.js`: the lowercased message
contains some trigger as a substring. -/
def shouldHandoff (message : String) : Bool :=
  HANDOFF_TRIGGERS.any (fun trigger => strIncludes (lowerStr message) trigger)

/-- Anchored case-insensitive alternation `/^(?:w1|w2|...)$/i`. -/
def anchoredMatch (alts : List String) (s : String) : Bool :=
  alts.contains (lowerStr s)

def viewPropertiesWords : List String := ["1", "view", "properties", "listings", "show"]

def scheduleViewingWords : List String := ["2", "viewing", "visit", "schedule", "see"]

def startApplicationWords : List String := ["3", "apply", "application", "start"]

/-! ## JsonStore (`src/utils/JsonStore.js`)

A store is backed by one flat JSON file under `data/`.  The file is modelled
as `Option (List α)`: `none` is a missing file (ENOENT), `some items` the
parsed array.  Every operation goes through `read` (parse the whole file)
and `write` (serialize and overwrite the whole file). -/

structure JFile (α : Type) where
  contents : Option (List α)
deriving DecidableEq, Repr

namespace JsonStore

variable {α : Type}

/-- `write(data)`: overwrite the whole file with `data`. -/
def write (_f : JFile α) (data : List α) : JFile α :=
  ⟨some data⟩

/-- `read()`: parse the whole file; on ENOENT, write the default data and
return it.  Every store in this repository is constructed with default `[]`;
the default is kept as an argument for fidelity. -/
def read (f : JFile α) (d : List α) : List α × JFile α :=
  match f.contents with
  | some items => (items, f)
  | none => (d, write f d)

/-- `getAll()`. -/
def getAll (f : JFile α) (d : List α) : List α × JFile α :=
  read f d

/-- `getById(id)` (ids are numbers here, so `item.id === id || item.id ===
parseInt(id)` is plain equality). -/
def getById (getId : α → Nat) (f : JFile α) (d : List α) (id : Nat) :
    Option α × JFile α :=
  let (items, f₁) := read f d
  (items.find? (fun item => getId item == id), f₁)

/-- `add(item)`: read the whole list, push, write the whole list back. -/
def add (f : JFile α) (d : List α) (item : α) : α × JFile α :=
  let (items, f₁) := read f d
  (item, write f₁ (items ++ [item]))

/-- Replace the first item satisfying `p` with its image under `merge`;
returns the new item and the whole modified list (the `findIndex` /
`items[index] = ...` pattern of `JsonStore.update`). -/
def updateFirst (p : α → Bool) (merge : α → α) : List α → Option (α × List α)
  | [] => none
  | x :: xs =>
    if p x then some (merge x, merge x :: xs)
    else
      match updateFirst p merge xs with
      | some (r, ys) => some (r, x :: ys)
      | none => none

/-- `update(id, updates)`: read the whole list, merge `updates` into the first
item with the given id (`merge` is the spread `{...items[index], ...updates}`),
write the whole modified list back.  Returns `none` without writing when no
item matches. -/
def update (getId : α → Nat) (f : JFile α) (d : List α) (id : Nat)
    (merge : α → α) : Option α × JFile α :=
  let (items, f₁) := read f d
  match updateFirst (fun item => getId item == id) merge items with
  | none => (none, f₁)
  | some (newItem, items') => (some newItem, write f₁ items')

/-- The `getById`-then-`update` pattern shared by the model classes
(`Conversation.addMessage`/`updateState`/`handoff`, `Lead.update`): fetch the
record, throw when absent, otherwise write the mutated record through
`update`. -/
def modifyById (getId : α → Nat) (f : JFile α) (d : List α) (id : Nat)
    (transform : α → α) (errMsg : String) : Except String (α × JFile α) :=
  let (itemOpt, f₁) := getById getId f d id
  match itemOpt with
  | none => .error errMsg
  | some item =>
    let item' := transform item
    let (_, f₂) := update getId f₁ d id (fun _ => item')
    .ok (item', f₂)

/-- `delete(id)`: read the whole list, filter the id out, write the whole
filtered list back; `false` without writing when nothing was removed. -/
def delete (getId : α → Nat) (f : JFile α) (d : List α) (id : Nat) :
    Bool × JFile α :=
  let (items, f₁) := read f d
  let filtered := items.filter (fun item => !(getId item == id))
  if filtered.length == items.length then (false, f₁)
  else (true, write f₁ filtered)

end JsonStore

/-! ## Analytics (`AnalyticsService` in `src/services/AnalyticsService.js`) -/

/-- Lead qualification data (`lead.qualificationData`). -/
structure QualData where
  budget : Option String
  location : Option String
  moveInDate : Option String
  bedrooms : Option String
  completed : Bool
deriving DecidableEq, Repr

/-- Payloads carried in `event.data` by the various `log*` helpers. -/
inductive EventData where
  | empty
  | leadCreated (source : String) (phone : String)
  | message (intent : Option String) (confidence : Option Rat)
  | qualStep (field : String) (value : String) (complete : Option Bool)
  | qualified (q : QualData)
  | handoffData (reason : Option String)
  | conversion (action : String)
deriving DecidableEq, Repr

/-- One analytics event record. -/
structure AEvent where
  id : Nat
  type : String
  leadId : Option Nat
  conversationId : Option Nat
  channel : String
  data : EventData
  timestamp : Nat
deriving DecidableEq, Repr

/-- Per-channel metric block (`getChannelMetrics`). -/
structure ChannelMetrics where
  leads : Nat
  conversations : Nat
  qualified : Nat
  handoffs : Nat
  conversions : Nat
deriving DecidableEq, Repr

/-- One day of the metrics timeline; `date` is the UTC day number
(the `YYYY-MM-DD` prefix of the ISO timestamp). -/
structure TimelineEntry where
  date : Nat
  leads : Nat
  qualified : Nat
  conversions : Nat
deriving DecidableEq, Repr

/-- The aggregated metrics object built by `getMetrics`.  The three rates are
kept as exact percentages (`none` when `totalLeads = 0`, where the code leaves
`rates` empty); the code additionally formats them with `toFixed(1)` and a
`%` sign, which is presentation only. -/
structure Metrics where
  totalLeads : Nat
  totalConversations : Nat
  totalMessages : Nat
  totalQualified : Nat
  totalHandoffs : Nat
  totalConversions : Nat
  qualificationRate : Option Rat
  handoffRate : Option Rat
  conversionRate : Option Rat
  smsMetrics : ChannelMetrics
  whatsappMetrics : ChannelMetrics
  voiceMetrics : ChannelMetrics
  timeline : List TimelineEntry
  generatedAt : Nat
deriving DecidableEq, Repr

/-- Filter options accepted by `getMetrics`. -/
structure MetricsOptions where
  startDate : Option Nat
  endDate : Option Nat
  channel : Option String
deriving DecidableEq, Repr

/-- `AnalyticsService` instance state: the JSON event store plus the
in-memory metrics cache. -/
structure Analytics where
  store : JFile AEvent
  metricsCache : Option Metrics
  cacheExpiry : Option Nat
deriving DecidableEq, Repr

namespace AnalyticsService

/-- Milliseconds in a day, used to recover the ISO date prefix from a
millisecond timestamp. -/
def dayMs : Nat := 86400000

/-- `countByType(events, type)`. -/
def countByType (events : List AEvent) (type : String) : Nat :=
  (events.filter (fun e => e.type == type)).length

/-- `getChannelMetrics(events, channel)`. -/
def getChannelMetrics (events : List AEvent) (channel : String) : ChannelMetrics :=
  let channelEvents := events.filter (fun e => e.channel == channel)
  { leads := countByType channelEvents "lead_created"
    conversations := countByType channelEvents "conversation_started"
    qualified := countByType channelEvents "lead_qualified"
    handoffs := countByType channelEvents "handoff"
    conversions := countByType channelEvents "conversion" }

/-- Days present in the event list, first occurrence order
(JS object key insertion order). -/
def timelineDays (events : List AEvent) : List Nat :=
  events.foldl
    (fun acc e =>
      let d := e.timestamp / dayMs
      if acc.contains d then acc else acc ++ [d])
    []

/-- Stable insertion into a list sorted by ascending date. -/
def insertByDate (x : TimelineEntry) : List TimelineEntry → List TimelineEntry
  | [] => [x]
  | y :: ys => if x.date < y.date then x :: y :: ys else y :: insertByDate x ys

def sortByDate (l : List TimelineEntry) : List TimelineEntry :=
  l.foldr insertByDate []

/-- `getTimeline(events)`: group by day, count leads/qualified/conversions,
sort ascending by date, keep the last 30 days. -/
def getTimeline (events : List AEvent) : List TimelineEntry :=
  let entries := (timelineDays events).map (fun d =>
    let dayEvents := events.filter (fun e => e.timestamp / dayMs == d)
    { date := d
      leads := countByType dayEvents "lead_created"
      qualified := countByType dayEvents "lead_qualified"
      conversions := countByType dayEvents "conversion" : TimelineEntry })
  let sorted := sortByDate entries
  sorted.drop (sorted.length - 30)

/-- The filter block of `getMetrics`. -/
def applyFilters (events : List AEvent) (options : MetricsOptions) : List AEvent :=
  let f₁ := match options.startDate with
    | some s => events.filter (fun e => s ≤ e.timestamp)
    | none => events
  let f₂ := match options.endDate with
    | some t => f₁.filter (fun e => e.timestamp ≤ t)
    | none => f₁
  match options.channel with
  | some c => f₂.filter (fun e => e.channel == c)
  | none => f₂

/-- The metrics computation of `getMetrics` on an already-filtered event
list. -/
def computeMetrics (filtered : List AEvent) (now : Nat) : Metrics :=
  let totalLeads := countByType filtered "lead_created"
  let totalQualified := countByType filtered "lead_qualified"
  let totalHandoffs := countByType filtered "handoff"
  let totalConversions := countByType filtered "conversion"
  { totalLeads := totalLeads
    totalConversations := countByType filtered "conversation_started"
    totalMessages :=
      countByType filtered "message_received" + countByType filtered "message_sent"
    totalQualified := totalQualified
    totalHandoffs := totalHandoffs
    totalConversions := totalConversions
    qualificationRate :=
      if totalLeads > 0 then some ((totalQualified : Rat) / totalLeads * 100) else none
    handoffRate :=
      if totalLeads > 0 then some ((totalHandoffs : Rat) / totalLeads * 100) else none
    conversionRate :=
      if totalLeads > 0 then some ((totalConversions : Rat) / totalLeads * 100) else none
    smsMetrics := getChannelMetrics filtered "sms"
    whatsappMetrics := getChannelMetrics filtered "whatsapp"
    voiceMetrics := getChannelMetrics filtered "voice"
    timeline := getTimeline filtered
    generatedAt := now }

/-- `invalidateCache()`. -/
def invalidateCache (a : Analytics) : Analytics :=
  { a with metricsCache := none, cacheExpiry := none }

/-- `getMetrics(options)`.  `this.metricsCache && this.cacheExpiry > Date.now()`:
a `null` expiry coerces to `0` and the comparison fails. -/
def getMetrics (a : Analytics) (now : Nat) (options : MetricsOptions) :
    Metrics × Analytics :=
  match a.metricsCache with
  | some cached =>
    if now < a.cacheExpiry.getD 0 then (cached, a)
    else
      let (events, store₁) := JsonStore.getAll a.store []
      let metrics := computeMetrics (applyFilters events options) now
      (metrics,
        { store := store₁
          metricsCache := some metrics
          cacheExpiry := some (now + 5 * 60 * 1000) })
  | none =>
    let (events, store₁) := JsonStore.getAll a.store []
    let metrics := computeMetrics (applyFilters events options) now
    (metrics,
      { store := store₁
        metricsCache := some metrics
        cacheExpiry := some (now + 5 * 60 * 1000) })

/-- `logEvent(event)`: append the entry to the store and invalidate the
metrics cache.  `event.channel || 'sms'` is the falsy fallback. -/
def logEvent (a : Analytics) (now : Nat) (type : String)
    (leadId conversationId : Option Nat) (channel : Option String)
    (data : EventData) : AEvent × Analytics :=
  let entry : AEvent :=
    { id := now
      type := type
      leadId := leadId
      conversationId := conversationId
      channel := orElseS channel "sms"
      data := data
      timestamp := now }
  let (_, store₁) := JsonStore.add a.store [] entry
  (entry, invalidateCache { a with store := store₁ })

end AnalyticsService

/-! ## Conversation data model (`src/models/Conversation.js`, `src/models/Lead.js`) -/

/-- `context.collectedData` of a conversation. -/
structure CollectedData where
  budget : Option String
  location : Option String
  moveInDate : Option String
deriving DecidableEq, Repr

/-- One message in a conversation's history. -/
structure Msg where
  id : Nat
  role : String
  content : Option String
  confidence : Option Rat
  intent : Option String
  timestamp : Nat
deriving DecidableEq, Repr

/-- Conversation `context`.  `outcome` is added by `Conversation.close`. -/
structure Context where
  currentField : Option String
  collectedData : CollectedData
  attempts : Nat
  lastIntent : Option String
  outcome : Option String
deriving DecidableEq, Repr

/-- One conversation record. -/
structure Conv where
  id : Nat
  leadId : Nat
  channel : String
  state : String
  context : Context
  messages : List Msg
  handoffReason : Option String
  handoffAt : Option Nat
  closedAt : Option Nat
  createdAt : Nat
  updatedAt : Nat
deriving DecidableEq, Repr

/-- One lead record (`metadata`, an opaque pass-through object, is omitted). -/
structure Lead where
  id : Nat
  phone : String
  email : Option String
  name : Option String
  source : String
  status : String
  propertyInterest : Option Nat
  qualificationData : QualData
  createdAt : Nat
  updatedAt : Nat
deriving DecidableEq, Repr

/-! ## AIReasoningService (`src/services/AIReasoningService.js`) -/

namespace AIReasoningService

/-- `FORBIDDEN_TOPICS`. -/
def FORBIDDEN_TOPICS : List String :=
  ["price negotiation", "discount", "reduce rent", "lower price",
   "legal advice", "eviction rights", "sue", "lawyer", "court", "discrimination"]

/-- `containsForbiddenTopic(message)`. -/
def containsForbiddenTopic (message : String) : Bool :=
  FORBIDDEN_TOPICS.any (fun topic => strIncludes (lowerStr message) topic)

/-- `extractedData` object (raw from the LLM or sanitized). -/
structure ExtractedData where
  budget : Option String
  location : Option String
  moveInDate : Option String
deriving DecidableEq, Repr

/-- The JSON object returned by the LLM after `JSON.parse`. -/
structure LLMParsed where
  response : Option String
  confidence : Option Rat
  intent : Option String
  extractedData : ExtractedData
  shouldHandoff : Bool
  handoffReason : Option String
deriving DecidableEq, Repr

/-- Outcome of the external LLM interaction, which the embedding treats as an
oracle: `noClient` models an unconfigured or failed client initialization
(`getOpenAIClient()` returned `null`), `failed` models the API call or JSON
parse throwing, and `ok` carries the parsed completion. -/
inductive LLMOutcome where
  | noClient
  | failed
  | ok (parsed : LLMParsed)
deriving DecidableEq, Repr

/-- Result object produced by `generateResponse`. -/
structure AIResult where
  response : String
  confidence : Rat
  intent : String
  extractedData : ExtractedData
  shouldHandoff : Bool
  handoffReason : Option String
deriving DecidableEq, Repr

/-- Context argument of `generateResponse`.  `messages` and `collectedData`
only feed the LLM prompt, i.e. the oracle. -/
structure AICtx where
  state : String
  messages : List Msg
  collectedData : CollectedData
deriving DecidableEq, Repr

/-- `Math.min(Math.max(x, 0), 1)`. -/
def clamp01 (x : Rat) : Rat :=
  min (max x 0) 1

/-- `x || d` on a nullable JSON number (`0` is falsy). -/
def orElseNum (x : Option Rat) (d : Rat) : Rat :=
  match x with
  | some c => if c == 0 then d else c
  | none => d

/-- `x || null` on a nullable string (`""` is falsy). -/
def nullIfEmpty (x : Option String) : Option String :=
  match x with
  | some s => if s == "" then none else some s
  | none => none

/-- `sanitizeExtractedData(data)`. -/
def sanitizeExtractedData (raw : ExtractedData) : ExtractedData :=
  { budget :=
      match raw.budget with
      | some b =>
        let ds := b.toList.filter Char.isDigit
        if ds.isEmpty then none
        else
          let amount := digitsToNat ds
          if 1000 ≤ amount && amount ≤ 100000 then some ("R" ++ natLocaleString amount)
          else none
      | none => none
    location :=
      match raw.location with
      | some l => if l == "" then none else some (String.mk ((trimList l.toList).take 100))
      | none => none
    moveInDate :=
      match raw.moveInDate with
      | some m => if m == "" then none else some (String.mk ((trimList m.toList).take 50))
      | none => none }

/-- Exactly three decimal digits at the head of the list. -/
def take3Digits : List Char → Option (List Char × List Char)
  | a :: b :: c :: rest =>
    if a.isDigit && b.isDigit && c.isDigit then some ([a, b, c], rest) else none
  | _ => none

/-- Consumed characters of the greedy star `(?:[,\s]?\d{3})*`: each repetition
takes an optional single separator and exactly three digits, preferring the
separator (fuel-structural; each repetition consumes at least three
characters). -/
def fbStarFuel : Nat → List Char → List Char
  | 0, _ => []
  | fuel + 1, cs =>
    match cs with
    | [] => []
    | c :: rest =>
      if c == ',' || c.isWhitespace then
        match take3Digits rest with
        | some (ds, rem) => c :: (ds ++ fbStarFuel fuel rem)
        | none => []
      else
        match take3Digits cs with
        | some (ds, rem) => ds ++ fbStarFuel fuel rem
        | none => []

/-- Suffix of the list starting at its first decimal digit. -/
def fromFirstDigit : List Char → Option (List Char)
  | [] => none
  | c :: rest => if c.isDigit then some (c :: rest) else fromFirstDigit rest

/-- Capture of the fallback budget regex
`/(?:r|zar)?\s*(\d{1,3}(?:[,\s]?\d{3})*)/i`: up to three digits starting at the
first digit, then separator-grouped triples. -/
def fbBudgetCapture (cs : List Char) : Option (List Char) :=
  match fromFirstDigit cs with
  | none => none
  | some ds =>
    let first := (ds.takeWhile Char.isDigit).take 3
    let rest := ds.drop first.length
    some (first ++ fbStarFuel rest.length rest)

/-- `generateFallbackResponse(userMessage, context)` — the stub used when the
LLM is unavailable or errored. -/
def generateFallbackResponse (userMessage : String) (context : AICtx) : AIResult :=
  let lower := lowerStr userMessage
  if ["human", "agent", "person", "help", "speak", "call me"].any
      (fun p => strIncludes lower p) then
    { response := "I'm connecting you with a member of our team. Someone will be in touch shortly."
      confidence := 0.95
      intent := "handoff"
      extractedData := ⟨none, none, none⟩
      shouldHandoff := true
      handoffReason := some "user_requested" }
  else if context.state == "NEW_LEAD" then
    { response := "Hi! 👋 Thanks for reaching out to Rentify. I'm here to help you find your perfect rental home.\n\nTo get started, could you tell me your approximate monthly budget for rent?"
      confidence := 0.7
      intent := "greeting"
      extractedData := ⟨none, none, none⟩
      shouldHandoff := false
      handoffReason := none }
  else if context.state == "GREETING" then
    match fbBudgetCapture lower.toList with
    | some cap =>
      let amount := digitsToNat (cap.filter Char.isDigit)
      if 1000 ≤ amount && amount ≤ 100000 then
        { response := "Great! And which area or suburb are you looking to live in?"
          confidence := 0.7
          intent := "budget"
          extractedData := ⟨some ("R" ++ natLocaleString amount), none, none⟩
          shouldHandoff := false
          handoffReason := none }
      else
        { response := "Could you tell me your monthly rent budget? For example, 'R5000' or 'around R8000'."
          confidence := 0.7
          intent := "budget"
          extractedData := ⟨none, none, none⟩
          shouldHandoff := false
          handoffReason := none }
    | none =>
      { response := "I didn't quite catch your budget. How much are you looking to spend on rent per month?"
        confidence := 0.7
        intent := "unknown"
        extractedData := ⟨none, none, none⟩
        shouldHandoff := false
        handoffReason := none }
  else if context.state == "QUALIFICATION" then
    { response := "Thanks for that information! We're building your rental profile. Would you like to:\n\n1️⃣ View available properties\n2️⃣ Schedule a viewing\n3️⃣ Start an application\n\nReply with 1, 2, or 3."
      confidence := 0.7
      intent := "qualification"
      extractedData := ⟨none, none, none⟩
      shouldHandoff := false
      handoffReason := none }
  else if context.state == "ACTION" then
    if ["1", "view", "properties", "list"].any (fun p => strIncludes lower p) then
      { response := "Check our available properties at:\nhttps://rentify-yruw.onrender.com/our-properties.html\n\nReply 'viewing' to schedule a visit!"
        confidence := 0.7
        intent := "view_properties"
        extractedData := ⟨none, none, none⟩
        shouldHandoff := false
        handoffReason := none }
    else if ["2", "viewing", "visit", "see"].any (fun p => strIncludes lower p) then
      { response := "To schedule a viewing, please visit:\nhttps://rentify-yruw.onrender.com/contact.html\n\nOr reply 'call' and we'll call you."
        confidence := 0.7
        intent := "schedule_viewing"
        extractedData := ⟨none, none, none⟩
        shouldHandoff := false
        handoffReason := none }
    else if ["3", "apply", "application"].any (fun p => strIncludes lower p) then
      { response := "Start your application here:\nhttps://rentify-yruw.onrender.com/application.html\n\nThis takes about 5 minutes."
        confidence := 0.7
        intent := "apply"
        extractedData := ⟨none, none, none⟩
        shouldHandoff := false
        handoffReason := none }
    else
      { response := "Please reply with:\n1️⃣ View properties\n2️⃣ Schedule a viewing\n3️⃣ Start application"
        confidence := 0.7
        intent := "unknown"
        extractedData := ⟨none, none, none⟩
        shouldHandoff := false
        handoffReason := none }
  else
    { response := "Thanks for reaching out! How can I help you with your rental search today?"
      confidence := 0.7
      intent := "greeting"
      extractedData := ⟨none, none, none⟩
      shouldHandoff := false
      handoffReason := none }

/-- Fixed result returned when the message touches a forbidden topic. -/
def forbiddenTopicResult : AIResult :=
  { response := "I understand you have questions about that topic. Let me connect you with a member of our team who can help you better. Someone will be in touch shortly."
    confidence := 1.0
    intent := "handoff"
    extractedData := ⟨none, none, none⟩
    shouldHandoff := true
    handoffReason := some "forbidden_topic" }

/-- `generateResponse(userMessage, context)`, with the LLM interaction as an
oracle.  Forbidden topics short-circuit before the client is even fetched;
a missing client or a thrown call falls back to the stub; otherwise the parsed
completion is post-processed for safety and low confidence forces a handoff. -/
def generateResponse (userMessage : String) (context : AICtx)
    (outcome : LLMOutcome) (confidenceThreshold : Rat) : AIResult :=
  if containsForbiddenTopic userMessage then forbiddenTopicResult
  else
    match outcome with
    | .noClient => generateFallbackResponse userMessage context
    | .failed => generateFallbackResponse userMessage context
    | .ok parsed =>
      let result : AIResult :=
        { response :=
            orElseS parsed.response
              "I'm here to help! Could you tell me more about what you're looking for?"
          confidence := clamp01 (orElseNum parsed.confidence 0.5)
          intent := orElseS parsed.intent "unknown"
          extractedData := sanitizeExtractedData parsed.extractedData
          shouldHandoff := parsed.shouldHandoff
          handoffReason := nullIfEmpty parsed.handoffReason }
      if result.confidence < confidenceThreshold && !result.shouldHandoff then
        { result with
          shouldHandoff := true
          handoffReason := some "low_confidence"
          response := result.response ++
            "\n\nIf you'd prefer to speak with someone directly, just say 'human' and I'll connect you with our team." }
      else result

end AIReasoningService

/-! ## Conversation model operations (`src/models/Conversation.js`) -/

namespace Conversation

def getId (c : Conv) : Nat := c.id

/-- `STATES` — the set of conversation state values. -/
def STATES : List String :=
  ["NEW_LEAD", "GREETING", "QUALIFICATION", "ACTION", "HANDOFF", "CLOSED"]

/-- `create(leadId, channel)`. -/
def create (f : JFile Conv) (now : Nat) (leadId : Nat) (channel : String) :
    Conv × JFile Conv :=
  let conversation : Conv :=
    { id := now
      leadId := leadId
      channel := channel
      state := "NEW_LEAD"
      context :=
        { currentField := none
          collectedData := ⟨none, none, none⟩
          attempts := 0
          lastIntent := none
          outcome := none }
      messages := []
      handoffReason := none
      handoffAt := none
      closedAt := none
      createdAt := now
      updatedAt := now }
  JsonStore.add f [] conversation

/-- `findActiveByLeadId(leadId)`: first conversation of the lead whose state is
neither CLOSED nor HANDOFF. -/
def findActiveByLeadId (f : JFile Conv) (leadId : Nat) : Option Conv × JFile Conv :=
  let (conversations, f₁) := JsonStore.getAll f []
  (conversations.find?
    (fun c => c.leadId == leadId && !(c.state == "CLOSED" || c.state == "HANDOFF")), f₁)

/-- `findById(id)`. -/
def findById (f : JFile Conv) (id : Nat) : Option Conv × JFile Conv :=
  JsonStore.getById getId f [] id

/-- The message record built by `addMessage(conversationId, message)`;
`message.confidence || null` and `message.intent || null` are falsy
fallbacks. -/
def mkMsg (now : Nat) (role : String) (content : Option String)
    (confidence : Option Rat) (intent : Option String) : Msg :=
  { id := now
    role := role
    content := content
    confidence :=
      match confidence with
      | some c => if c == 0 then none else some c
      | none => none
    intent := AIReasoningService.nullIfEmpty intent
    timestamp := now }

/-- The record mutation `addMessage` performs on the fetched conversation. -/
def addMsgTransform (now : Nat) (newMessage : Msg) (c : Conv) : Conv :=
  { c with messages := c.messages ++ [newMessage], updatedAt := now }

def addMessage (f : JFile Conv) (now : Nat) (conversationId : Nat) (role : String)
    (content : Option String) (confidence : Option Rat) (intent : Option String) :
    Except String (Conv × JFile Conv) :=
  JsonStore.modifyById getId f [] conversationId
    (addMsgTransform now (mkMsg now role content confidence intent))
    "Conversation not found"

/-- The record mutation `updateState(conversationId, newState, contextUpdates)`
performs on the fetched conversation; `ctxMerge` is the spread
`{...conversation.context, ...contextUpdates}`. -/
def updateStateTransform (now : Nat) (newState : String) (ctxMerge : Context → Context)
    (c : Conv) : Conv :=
  { c with
    state := newState
    context := ctxMerge c.context
    updatedAt := now
    handoffAt := if newState == "HANDOFF" then some now else c.handoffAt
    closedAt := if newState == "CLOSED" then some now else c.closedAt }

def updateState (f : JFile Conv) (now : Nat) (conversationId : Nat) (newState : String)
    (ctxMerge : Context → Context) : Except String (Conv × JFile Conv) :=
  JsonStore.modifyById getId f [] conversationId
    (updateStateTransform now newState ctxMerge) "Conversation not found"

/-- The record mutation `handoff(conversationId, reason)` performs on the
fetched conversation. -/
def handoffTransform (now : Nat) (reason : String) (c : Conv) : Conv :=
  { c with
    state := "HANDOFF"
    handoffReason := some reason
    handoffAt := some now
    updatedAt := now }

def handoff (f : JFile Conv) (now : Nat) (conversationId : Nat) (reason : String) :
    Except String (Conv × JFile Conv) :=
  JsonStore.modifyById getId f [] conversationId
    (handoffTransform now reason) "Conversation not found"

end Conversation

/-! ## Lead model operations (`src/models/Lead.js`) -/

namespace LeadModel

def getId (l : Lead) : Nat := l.id

/-- `normalizePhone(phone)`: drop every character that is neither a digit nor
`+`. -/
def normalizePhone (phone : String) : String :=
  String.mk (phone.toList.filter (fun c => c.isDigit || c == '+'))

/-- `create(leadData)` as called from `processMessage`:
`{ phone: from, source: channel }` (with `leadData.source || 'sms'`). -/
def create (f : JFile Lead) (now : Nat) (phone : String) (source : String) :
    Lead × JFile Lead :=
  let lead : Lead :=
    { id := now
      phone := phone
      email := none
      name := none
      source := if source == "" then "sms" else source
      status := "new"
      propertyInterest := none
      qualificationData :=
        { budget := none, location := none, moveInDate := none,
          bedrooms := none, completed := false }
      createdAt := now
      updatedAt := now }
  JsonStore.add f [] lead

/-- `findByPhone(phone)` with phone normalization on both sides. -/
def findByPhone (f : JFile Lead) (phone : String) : Option Lead × JFile Lead :=
  let (leads, f₁) := JsonStore.getAll f []
  (leads.find? (fun l => normalizePhone l.phone == normalizePhone phone), f₁)

/-- `findById(id)`. -/
def findById (f : JFile Lead) (id : Nat) : Option Lead × JFile Lead :=
  JsonStore.getById getId f [] id

/-- The field subset of `qualificationData` that `updateQualification` call
sites pass; a `some` field overwrites, `none` leaves the stored value. -/
structure QualUpdates where
  budget : Option String
  location : Option String
  moveInDate : Option String
deriving DecidableEq, Repr

/-- The record transform that `updateQualification(id, qualData)` applies to
the fetched lead: merge the updates, recompute `completed` by string
truthiness, promote status to `'qualified'` once complete, bump `updatedAt`
(the `updatedAt` merge comes from the `Lead.update` write-through). -/
def applyQualUpdates (now : Nat) (qd : QualUpdates) (lead : Lead) : Lead :=
  let merged : QualData :=
    { budget := match qd.budget with | some b => some b | none => lead.qualificationData.budget
      location := match qd.location with | some l => some l | none => lead.qualificationData.location
      moveInDate := match qd.moveInDate with | some m => some m | none => lead.qualificationData.moveInDate
      bedrooms := lead.qualificationData.bedrooms
      completed := lead.qualificationData.completed }
  let completed := truthyS merged.budget && truthyS merged.location && truthyS merged.moveInDate
  { lead with
    qualificationData := { merged with completed := completed }
    status := if completed then "qualified" else lead.status
    updatedAt := now }

def updateQualification (f : JFile Lead) (now : Nat) (id : Nat) (qd : QualUpdates) :
    Except String (Lead × JFile Lead) :=
  JsonStore.modifyById getId f [] id (applyQualUpdates now qd) "Lead not found"

end LeadModel

/-! ## ConversationService (`src/services/ConversationService.js`) -/

namespace ConversationService

/-- The slice of `config/environment.js` that the service reads.
`aiConfigured` is `AIReasoningService.isConfigured()`, i.e.
`!!env.ai.llmApiKey`. -/
structure Env where
  twilioPhoneNumber : Option String
  baseUrl : Option String
  aiConfigured : Bool
  confidenceThreshold : Rat
deriving DecidableEq, Repr

/-- The three JSON-backed stores the service touches, plus the analytics
cache. -/
structure SysState where
  leads : JFile Lead
  conversations : JFile Conv
  analytics : Analytics
deriving DecidableEq, Repr

/-- Return value of `processMessage`.  In the handoff branch the code returns
the in-memory `conversation`/`lead` objects fetched before the handoff; in the
main path it returns fresh `findById` reads. -/
structure ProcResult where
  response : Option String
  conversation : Option Conv
  lead : Option Lead
  sys : SysState
deriving DecidableEq, Repr

/-! ### Templates (`TEMPLATES`) -/

def greetingSms : String :=
  "Hi! 👋 Thanks for your interest in renting with Rentify. I'm here to help you find your perfect home.\n\nTo get started, could you tell me your approximate monthly budget for rent?"

def greetingWhatsapp : String :=
  "Hi! 👋 Thanks for your interest in renting with Rentify. I'm here to help you find your perfect home.\n\nTo get started, could you tell me your approximate monthly budget for rent?"

/-- `TEMPLATES.greeting[channel] || TEMPLATES.greeting.sms`. -/
def greetingFor (channel : String) : String :=
  if channel == "sms" then greetingSms
  else if channel == "whatsapp" then greetingWhatsapp
  else greetingSms

def askLocationTemplate : String :=
  "Great! And which area or suburb are you looking to live in?"

def askMoveInTemplate : String :=
  "Perfect! When are you looking to move in? (e.g., \"next month\", \"March 2026\", \"ASAP\")"

def qualifiedTemplate : String :=
  "Excellent! Based on what you've shared:\n💰 Budget: {budget}\n📍 Location: {location}\n📅 Move-in: {moveInDate}\n\nI can help you:\n1️⃣ View available properties matching your criteria\n2️⃣ Schedule a viewing\n3️⃣ Start an application\n\nReply with 1, 2, or 3 to continue, or type \"human\" to speak with our team."

def viewPropertiesTemplate : String :=
  "Here are some properties that match your criteria:\n{properties}\n\nReply with a property number to learn more, or \"viewing\" to schedule a visit."

def scheduleViewingTemplate : String :=
  "Great! To schedule a viewing, please visit:\n{viewingLink}\n\nOr reply \"call\" and we'll call you to arrange a time."

def startApplicationTemplate : String :=
  "You can start your application here:\n{applicationLink}\n\nThis takes about 5 minutes and helps us process your request faster."

def handoffTemplate : String :=
  "I'm connecting you with a member of our team. Someone will be in touch shortly. If urgent, call us at {phone}."

def errorTemplate : String :=
  "I'm sorry, I didn't quite understand that. Could you please try again?"

def closedTemplate : String :=
  "Thank you for chatting with Rentify! If you need anything else, just message us anytime. 🏠"

/-! ### Analytics logging wrappers (`AnalyticsService.log*`) -/

def logLeadCreated (a : Analytics) (now : Nat) (lead : Lead) (channel : String) : Analytics :=
  (AnalyticsService.logEvent a now "lead_created" (some lead.id) none (some channel)
    (.leadCreated lead.source lead.phone)).2

def logConversationStarted (a : Analytics) (now : Nat) (conversation : Conv) (lead : Lead) :
    Analytics :=
  (AnalyticsService.logEvent a now "conversation_started" (some lead.id)
    (some conversation.id) (some conversation.channel) .empty).2

def logMessage (a : Analytics) (now : Nat) (conversation : Conv) (intent : Option String)
    (confidence : Option Rat) (direction : String) : Analytics :=
  (AnalyticsService.logEvent a now
    (if direction == "inbound" then "message_received" else "message_sent")
    (some conversation.leadId) (some conversation.id) (some conversation.channel)
    (.message intent confidence)).2

def logQualificationStep (a : Analytics) (now : Nat) (lead : Lead) (field value : String) :
    Analytics :=
  (AnalyticsService.logEvent a now "qualification_step" (some lead.id) none none
    (.qualStep field value (some lead.qualificationData.completed))).2

def logLeadQualified (a : Analytics) (now : Nat) (lead : Lead) : Analytics :=
  (AnalyticsService.logEvent a now "lead_qualified" (some lead.id) none none
    (.qualified lead.qualificationData)).2

def logHandoff (a : Analytics) (now : Nat) (conversation : Conv) (reason : Option String) :
    Analytics :=
  (AnalyticsService.logEvent a now "handoff" (some conversation.leadId)
    (some conversation.id) (some conversation.channel) (.handoffData reason)).2

def logConversion (a : Analytics) (now : Nat) (lead : Lead) (action : String) : Analytics :=
  (AnalyticsService.logEvent a now "conversion" (some lead.id) none none
    (.conversion action)).2

/-! ### The engine -/

/-- `contextUpdates` object of the template path: only the keys that the code
actually assigns (`currentField`, `collectedData`); a missing key leaves the
context field unchanged under the spread in `updateState`. -/
structure CtxUpdates where
  currentField : Option (Option String)
  collectedData : Option CollectedData
deriving DecidableEq, Repr

/-- `Object.keys(contextUpdates).length > 0`. -/
def CtxUpdates.nonEmptyKeys (u : CtxUpdates) : Bool :=
  u.currentField.isSome || u.collectedData.isSome

/-- The spread `{...context, ...contextUpdates}`. -/
def applyCtxUpdates (u : CtxUpdates) (c : Context) : Context :=
  { c with
    currentField := match u.currentField with | some v => v | none => c.currentField
    collectedData := match u.collectedData with | some v => v | none => c.collectedData }

/-- `handleAction(body, lead, conversation)`: returns the reply message, the
`close` flag, and the state updated with any conversion events. -/
def handleAction (env : Env) (now : Nat) (body : String) (lead : Lead) (sys : SysState) :
    (String × Bool) × SysState :=
  let baseUrl := orElseS env.baseUrl "https://rentify-yruw.onrender.com"
  if anchoredMatch viewPropertiesWords body then
    ((strReplace viewPropertiesTemplate "{properties}"
        ("🏠 Check our available properties at:\n" ++ baseUrl ++ "/our-properties.html"),
      false), sys)
  else if anchoredMatch scheduleViewingWords body then
    ((strReplace scheduleViewingTemplate "{viewingLink}" (baseUrl ++ "/contact.html"), false),
     { sys with analytics := logConversion sys.analytics now lead "viewing_booked" })
  else if anchoredMatch startApplicationWords body then
    ((strReplace startApplicationTemplate "{applicationLink}" (baseUrl ++ "/application.html"),
      true),
     { sys with analytics := logConversion sys.analytics now lead "application_started" })
  else
    (("Please reply with:\n1️⃣ View properties\n2️⃣ Schedule a viewing\n3️⃣ Start an application\n\nOr type \"human\" to speak with our team.", false), sys)

/-- `handleQualification(body, lead, conversation, leadModel)`.  The returned
triple is `(response, newState, contextUpdates)`; the response is `none` in the
unreachable branch where `currentField` is neither `location` nor `moveInDate`
(the JS variable stays `undefined` there). -/
def handleQualification (now : Nat) (body : String) (lead : Lead) (conversation : Conv)
    (sys : SysState) : Except String ((Option String × String × CtxUpdates) × SysState) :=
  let currentField := orElseS conversation.context.currentField "location"
  let collectedData := conversation.context.collectedData
  if currentField == "location" then
    match extractLocation body with
    | some location =>
      match LeadModel.updateQualification sys.leads now lead.id ⟨none, some location, none⟩ with
      | .error e => .error e
      | .ok (_, leads') =>
        .ok ((some askMoveInTemplate, "QUALIFICATION",
              ⟨some (some "moveInDate"), some { collectedData with location := some location }⟩),
             { sys with
               leads := leads'
               analytics := logQualificationStep sys.analytics now lead "location" location })
    | none =>
      .ok ((some "Which area or suburb are you interested in? (e.g., \"Sandton\", \"Cape Town CBD\", \"Pretoria East\")",
            "QUALIFICATION", ⟨none, some collectedData⟩), sys)
  else if currentField == "moveInDate" then
    match extractMoveIn body with
    | some moveIn =>
      if moveIn == "" then
        .ok ((some "When are you looking to move in? (e.g., \"February\", \"next month\", \"ASAP\")",
              "QUALIFICATION", ⟨none, some collectedData⟩), sys)
      else
        match LeadModel.updateQualification sys.leads now lead.id ⟨none, none, some moveIn⟩ with
        | .error e => .error e
        | .ok (_, leads') =>
          let qualBudget :=
            if truthyS collectedData.budget then collectedData.budget
            else lead.qualificationData.budget
          let response :=
            strReplace (strReplace (strReplace qualifiedTemplate
              "{budget}" (orElseS qualBudget "Not specified"))
              "{location}" (orElseS collectedData.location "Not specified"))
              "{moveInDate}" (orElseS (some moveIn) "Not specified")
          .ok ((some response, "ACTION",
                ⟨some none, some { collectedData with moveInDate := some moveIn }⟩),
               { sys with
                 leads := leads'
                 analytics := logLeadQualified
                   (logQualificationStep sys.analytics now lead "moveInDate" moveIn) now lead })
    | none =>
      .ok ((some "When are you looking to move in? (e.g., \"February\", \"next month\", \"ASAP\")",
            "QUALIFICATION", ⟨none, some collectedData⟩), sys)
  else
    .ok ((none, "QUALIFICATION", ⟨none, some collectedData⟩), sys)

/-- `processWithTemplates(body, conversation, lead, leadModel,
conversationModel, channel)`. -/
def processWithTemplates (env : Env) (now : Nat) (body : String) (conversation : Conv)
    (lead : Lead) (channel : String) (sys : SysState) :
    Except String (Option String × SysState) := do
  let (response, newState, contextUpdates, sys₁) ←
    if conversation.state == "NEW_LEAD" then
      pure (some (greetingFor channel), "GREETING", (⟨none, none⟩ : CtxUpdates), sys)
    else if conversation.state == "GREETING" then
      match extractBudget body with
      | some budgetMatch =>
        match LeadModel.updateQualification sys.leads now lead.id
            ⟨some budgetMatch, none, none⟩ with
        | .error e => .error e
        | .ok (_, leads') =>
          pure (some askLocationTemplate, "QUALIFICATION",
            (⟨some (some "location"),
              some { conversation.context.collectedData with budget := some budgetMatch }⟩ :
              CtxUpdates),
            { sys with
              leads := leads'
              analytics := logQualificationStep sys.analytics now lead "budget" budgetMatch })
      | none =>
        pure (some "I didn't catch your budget. Could you tell me how much you're looking to spend on rent per month? (e.g., \"R5000\" or \"around R8000\")",
          conversation.state, (⟨none, none⟩ : CtxUpdates), sys)
    else if conversation.state == "QUALIFICATION" then do
      let ((resp, ns, u), sys') ← handleQualification now body lead conversation sys
      pure (resp, ns, u, sys')
    else if conversation.state == "ACTION" then
      let ((message, close), sys') := handleAction env now body lead sys
      pure (some message, if close then "CLOSED" else conversation.state,
        (⟨none, none⟩ : CtxUpdates), sys')
    else
      pure (some (greetingFor channel), "GREETING", (⟨none, none⟩ : CtxUpdates), sys)
  let sys₂ ←
    if !(newState == conversation.state) || contextUpdates.nonEmptyKeys then do
      let (_, convs') ← Conversation.updateState sys₁.conversations now conversation.id
        newState (applyCtxUpdates contextUpdates)
      pure { sys₁ with conversations := convs' }
    else pure sys₁
  let (_, convs₂) ← Conversation.addMessage sys₂.conversations now conversation.id
    "assistant" response (some 0.8) none
  pure (response, { sys₂ with conversations := convs₂ })

/-- First sequential block of `processWithAI`'s try body: if the AI extracted a
budget, record it on the lead (and advance a GREETING conversation). -/
def aiQualBudget (now : Nat) (conversation : Conv) (lead : Lead)
    (aiResult : AIReasoningService.AIResult) (sys : SysState) :
    Except String (String × Context × SysState) :=
  if truthyS aiResult.extractedData.budget then
    match LeadModel.updateQualification sys.leads now lead.id
        ⟨aiResult.extractedData.budget, none, none⟩ with
    | .error e => .error e
    | .ok (_, leads') =>
      let ctx' := { conversation.context with
        collectedData := { conversation.context.collectedData with
          budget := aiResult.extractedData.budget } }
      let sys' := { sys with
        leads := leads'
        analytics := logQualificationStep sys.analytics now lead "budget"
          (aiResult.extractedData.budget.getD "") }
      if conversation.state == "GREETING" then
        .ok ("QUALIFICATION", { ctx' with currentField := some "location" }, sys')
      else .ok (conversation.state, ctx', sys')
  else .ok (conversation.state, conversation.context, sys)

/-- Second block: if the AI extracted a location, record it. -/
def aiQualLocation (now : Nat) (lead : Lead) (aiResult : AIReasoningService.AIResult)
    (st₁ : String) (ctx₁ : Context) (sys₁ : SysState) :
    Except String (String × Context × SysState) :=
  if truthyS aiResult.extractedData.location then
    match LeadModel.updateQualification sys₁.leads now lead.id
        ⟨none, aiResult.extractedData.location, none⟩ with
    | .error e => .error e
    | .ok (_, leads') =>
      .ok (st₁,
        { ctx₁ with
          collectedData := { ctx₁.collectedData with
            location := aiResult.extractedData.location }
          currentField := some "moveInDate" },
        { sys₁ with
          leads := leads'
          analytics := logQualificationStep sys₁.analytics now lead "location"
            (aiResult.extractedData.location.getD "") })
  else .ok (st₁, ctx₁, sys₁)

/-- Third block: if the AI extracted a move-in date, record it, re-read the
lead and advance to ACTION when qualification completed. -/
def aiQualMoveIn (now : Nat) (lead : Lead) (aiResult : AIReasoningService.AIResult)
    (st₂ : String) (ctx₂ : Context) (sys₂ : SysState) :
    Except String (String × Context × SysState) :=
  if truthyS aiResult.extractedData.moveInDate then
    match LeadModel.updateQualification sys₂.leads now lead.id
        ⟨none, none, aiResult.extractedData.moveInDate⟩ with
    | .error e => .error e
    | .ok (_, leads') =>
      let ctx' := { ctx₂ with
        collectedData := { ctx₂.collectedData with
          moveInDate := aiResult.extractedData.moveInDate } }
      let sys' := { sys₂ with
        leads := leads'
        analytics := logQualificationStep sys₂.analytics now lead "moveInDate"
          (aiResult.extractedData.moveInDate.getD "") }
      let (ulOpt, leadsF) := LeadModel.findById sys'.leads lead.id
      match ulOpt with
      | none => .error "TypeError: Cannot read properties of null"
      | some updatedLead =>
        let sys'' := { sys' with leads := leadsF }
        if updatedLead.qualificationData.completed then
          .ok ("ACTION", ctx',
            { sys'' with analytics := logLeadQualified sys''.analytics now updatedLead })
        else .ok (st₂, ctx', sys'')
  else .ok (st₂, ctx₂, sys₂)

/-- Final block: intent-driven conversions, the conversation state update and
the assistant reply message. -/
def aiFinish (now : Nat) (conversation : Conv) (lead : Lead)
    (aiResult : AIReasoningService.AIResult) (st₃ : String) (ctx₃ : Context)
    (sys₃ : SysState) : Except String (Option String × SysState) :=
  let (st₄, sys₄) :=
    if aiResult.intent == "view_properties" || aiResult.intent == "schedule_viewing"
        || aiResult.intent == "apply" then
      ("ACTION",
       if aiResult.intent == "schedule_viewing" then
         { sys₃ with analytics := logConversion sys₃.analytics now lead "viewing_booked" }
       else if aiResult.intent == "apply" then
         { sys₃ with
           analytics := logConversion sys₃.analytics now lead "application_started" }
       else sys₃)
    else (st₃, sys₃)
  match Conversation.updateState sys₄.conversations now conversation.id st₄
      (fun _ => ctx₃) with
  | .error e => .error e
  | .ok (_, convs') =>
    match Conversation.addMessage convs' now conversation.id "assistant"
        (some aiResult.response) (some aiResult.confidence) (some aiResult.intent) with
    | .error e => .error e
    | .ok (_, convs₂) => .ok (some aiResult.response, { sys₄ with conversations := convs₂ })

/-- `processWithAI(body, conversation, lead, leadModel, conversationModel)`.
`aiPathFails` models the `try`/`catch`: when the AI-processing body throws, the
catch falls back to `processWithTemplates` with channel `'sms'`.  The four
sequential statement blocks of the try body are `aiQualBudget`,
`aiQualLocation`, `aiQualMoveIn` and `aiFinish`. -/
def processWithAI (env : Env) (now : Nat) (body : String) (conversation : Conv)
    (lead : Lead) (outcome : AIReasoningService.LLMOutcome) (aiPathFails : Bool)
    (sys : SysState) : Except String (Option String × SysState) :=
  if aiPathFails then processWithTemplates env now body conversation lead "sms" sys
  else
    let aiResult := AIReasoningService.generateResponse body
      ⟨conversation.state, conversation.messages, conversation.context.collectedData⟩
      outcome env.confidenceThreshold
    if aiResult.shouldHandoff then
      match Conversation.handoff sys.conversations now conversation.id
          (orElseS aiResult.handoffReason "ai_uncertain") with
      | .error e => .error e
      | .ok (_, convs₁) =>
        match Conversation.addMessage convs₁ now conversation.id "assistant"
            (some aiResult.response) (some aiResult.confidence)
            (some aiResult.intent) with
        | .error e => .error e
        | .ok (_, convs₂) =>
          .ok (some aiResult.response,
            { sys with
              conversations := convs₂
              analytics := logHandoff sys.analytics now conversation
                aiResult.handoffReason })
    else
      match aiQualBudget now conversation lead aiResult sys with
      | .error e => .error e
      | .ok (st₁, ctx₁, sys₁) =>
        match aiQualLocation now lead aiResult st₁ ctx₁ sys₁ with
        | .error e => .error e
        | .ok (st₂, ctx₂, sys₂) =>
          match aiQualMoveIn now lead aiResult st₂ ctx₂ sys₂ with
          | .error e => .error e
          | .ok (st₃, ctx₃, sys₃) => aiFinish now conversation lead aiResult st₃ ctx₃ sys₃

/-- The part of `processMessage` from the handoff-trigger check onward,
split out so the resolution of lead/conversation can be reasoned about
separately.  `processMessage = resolution ; processMessageTail`. -/
def processMessageTail (env : Env) (now : Nat)
    (outcome : AIReasoningService.LLMOutcome) (aiPathFails : Bool)
    (body : String) (channel : String) (lead : Lead) (conversation : Conv)
    (sys₃ : SysState) : Except String ProcResult := do
  if shouldHandoff body then do
    let response := strReplace handoffTemplate "{phone}"
      (orElseS env.twilioPhoneNumber "(contact support)")
    let (_, convsF₄) ← Conversation.handoff sys₃.conversations now conversation.id
      "user_requested"
    let (_, convsF₅) ← Conversation.addMessage convsF₄ now conversation.id "assistant"
      (some response) (some 1.0) none
    pure { response := some response
           conversation := some conversation
           lead := some lead
           sys := { sys₃ with
                    conversations := convsF₅
                    analytics := logHandoff sys₃.analytics now conversation
                      (some "user_requested") } }
  else do
    let (resp, sys₄) ←
      if env.aiConfigured then
        processWithAI env now body conversation lead outcome aiPathFails sys₃
      else processWithTemplates env now body conversation lead channel sys₃
    let (updatedConversation, convsF₆) := Conversation.findById sys₄.conversations conversation.id
    let (updatedLead, leadsF₆) := LeadModel.findById sys₄.leads lead.id
    pure { response := resp
           conversation := updatedConversation
           lead := updatedLead
           sys := { sys₄ with conversations := convsF₆, leads := leadsF₆ } }

/-- The get-or-create-lead block at the top of `processMessage`. -/
def resolveLead (now : Nat) (sender channel : String) (sys : SysState) :
    Lead × SysState :=
  let (leadOpt, leadsF₁) := LeadModel.findByPhone sys.leads sender
  match leadOpt with
  | some l => (l, { sys with leads := leadsF₁ })
  | none =>
    let (l, leadsF₂) := LeadModel.create leadsF₁ now sender channel
    (l, { sys with
          leads := leadsF₂
          analytics := logLeadCreated sys.analytics now l channel })

/-- The get-or-create-active-conversation block of `processMessage`. -/
def resolveConversation (now : Nat) (channel : String) (lead : Lead) (sys₁ : SysState) :
    Conv × SysState :=
  let (convOpt, convsF₁) := Conversation.findActiveByLeadId sys₁.conversations lead.id
  match convOpt with
  | some c => (c, { sys₁ with conversations := convsF₁ })
  | none =>
    let (c, convsF₂) := Conversation.create convsF₁ now lead.id channel
    (c, { sys₁ with
          conversations := convsF₂
          analytics := logConversationStarted sys₁.analytics now c lead })

/-- `processMessage(from, body, channel)`.  `detect` is `detectIntent`, whose
regex output is stored as message metadata only; it is a parameter of the
embedding, so every theorem below holds for any intent detector.  `outcome`
and `aiPathFails` are the LLM/exception oracles. -/
def processMessage (env : Env) (now : Nat) (detect : String → String)
    (outcome : AIReasoningService.LLMOutcome) (aiPathFails : Bool)
    (sender : String) (body : String) (channel : String) (sys : SysState) :
    Except String ProcResult := do
  let (lead, sys₁) := resolveLead now sender channel sys
  let (conversation, sys₂) := resolveConversation now channel lead sys₁
  let (_, convsF₃) ← Conversation.addMessage sys₂.conversations now conversation.id "user"
    (some body) none (some (detect body))
  let sys₃ := { sys₂ with
                conversations := convsF₃
                analytics := logMessage sys₂.analytics now conversation
                  (some (detect body)) none "inbound" }
  processMessageTail env now outcome aiPathFails body channel lead conversation sys₃

end ConversationService

/-! ## Contact-form submission (`router.post('/')` in
`src/routes/messageRoutes.js`, backed by `MessageService.create`) -/

namespace MessageRoutes

/-- Request body of `POST /api/messages`.  Absent fields are `none`;
`propertyId` is modelled as the already-parsed number (`parseInt` of the
request string is outside the verified scope). -/
structure ContactRequest where
  name : Option String
  email : Option String
  phone : Option String
  subject : Option String
  message : Option String
  propertyId : Option Nat
deriving DecidableEq, Repr

/-- A stored contact message record (`MessageService.create`). -/
structure StoredMessage where
  id : Nat
  name : String
  email : String
  phone : String
  subject : String
  message : String
  propertyId : Option Nat
  status : String
  createdAt : Nat
  updatedAt : Nat
  repliedAt : Option Nat
deriving DecidableEq, Repr

/-- Auto-increment id: `messages.length > 0 ? Math.max(...ids) + 1 : 1`. -/
def nextId (messages : List StoredMessage) : Nat :=
  match messages with
  | [] => 1
  | _ => (messages.map StoredMessage.id).foldl max 0 + 1

/-- `[^\s@]`. -/
def validEmailChar (c : Char) : Bool :=
  !(c == '@') && !c.isWhitespace

/-- Split a char list at its first `'@'`. -/
def splitAtFirstAt : List Char → Option (List Char × List Char)
  | [] => none
  | c :: rest =>
    if c == '@' then some ([], rest)
    else
      match splitAtFirstAt rest with
      | some (a, b) => some (c :: a, b)
      | none => none

/-- Some `'.'` occurs in `b` with at least one character before and after it
(within `b`). -/
def hasInnerDot (b : List Char) : Bool :=
  (List.range b.length).any (fun i => decide (1 ≤ i) && decide (i + 1 < b.length)
    && (b.get? i == some '.'))

/-- `/^[^\s@]+@[^\s@]+\.[^\s@]+$/.test(email)`: exactly one `@`, no
whitespace, a non-empty local part, and a domain containing an inner dot.
Since `[^\s@]` admits `'.'`, the domain condition is exactly an inner dot. -/
def emailRegexTest (email : String) : Bool :=
  match splitAtFirstAt email.toList with
  | none => false
  | some (a, b) =>
    !a.isEmpty && a.all validEmailChar && !b.isEmpty && b.all validEmailChar
      && hasInnerDot b

/-- `MessageService.create(messageData)`: read the whole file, append the new
record with an auto-increment id, write the whole file back. -/
def create (f : JFile StoredMessage) (now : Nat) (name email phone subject message : String)
    (propertyId : Option Nat) : StoredMessage × JFile StoredMessage :=
  let (messages, f₁) := JsonStore.read f []
  let newMessage : StoredMessage :=
    { id := nextId messages
      name := name
      email := email
      phone := phone
      subject := subject
      message := message
      propertyId := propertyId
      status := "unread"
      createdAt := now
      updatedAt := now
      repliedAt := none }
  (newMessage, JsonStore.write f₁ (messages ++ [newMessage]))

/-- HTTP response of the submission handler (the fields the route sets). -/
structure RouteResponse where
  status : Nat
  success : Bool
  code : Option String
  data : Option StoredMessage
deriving DecidableEq, Repr

/-- The `router.post('/')` handler: reject 400/`VALIDATION_ERROR` when `name`,
`email` or `message` is falsy or the email fails the regex (without touching
the store), otherwise create the record and answer 201. -/
def postMessage (now : Nat) (req : ContactRequest) (f : JFile StoredMessage) :
    RouteResponse × JFile StoredMessage :=
  if !(truthyS req.name && truthyS req.email && truthyS req.message) then
    ({ status := 400, success := false, code := some "VALIDATION_ERROR", data := none }, f)
  else if !emailRegexTest (req.email.getD "") then
    ({ status := 400, success := false, code := some "VALIDATION_ERROR", data := none }, f)
  else
    let (newMessage, f') := create f now (req.name.getD "") (req.email.getD "")
      (orElseS req.phone "") (orElseS req.subject "General Inquiry")
      (req.message.getD "") req.propertyId
    ({ status := 201, success := true, code := none, data := some newMessage }, f')

end MessageRoutes

/-! ## Proof toolkit: first-match decompositions for the store operations -/

theorem updateFirst_some_spec {α : Type} (p : α → Bool) (m : α → α) :
    ∀ (l : List α) (r : α) (l' : List α), JsonStore.updateFirst p m l = some (r, l') →
      ∃ pre x post, l = pre ++ x :: post ∧ (∀ y ∈ pre, p y = false) ∧ p x = true ∧
        r = m x ∧ l' = pre ++ m x :: post := by
  intro l
  induction l with
  | nil => intro r l' h; simp [JsonStore.updateFirst] at h
  | cons a l ih =>
    intro r l' h
    by_cases ha : p a
    · refine ⟨[], a, l, by simp, by simp, ha, ?_, ?_⟩ <;>
        · simp [JsonStore.updateFirst, ha] at h
          simp [h.1.symm, h.2.symm]
    · simp only [JsonStore.updateFirst, ha, if_neg, Bool.false_eq_true, if_false] at h
      cases hrec : JsonStore.updateFirst p m l with
      | none => rw [hrec] at h; cases h
      | some v =>
        rw [hrec] at h
        obtain ⟨r₀, ys⟩ := v
        simp only [Option.some.injEq, Prod.mk.injEq] at h
        obtain ⟨hr, hl'⟩ := h
        obtain ⟨pre, x, post, hl, hpre, hx, hr₀, hys⟩ := ih r₀ ys hrec
        refine ⟨a :: pre, x, post, by simp [hl], ?_, hx, by simp [hr.symm, hr₀], by simp [hl'.symm, hys]⟩
        intro y hy
        rcases List.mem_cons.mp hy with rfl | hy'
        · simpa using ha
        · exact hpre y hy'

theorem updateFirst_append {α : Type} (p : α → Bool) (m : α → α)
    (pre post : List α) (x : α) (hpre : ∀ y ∈ pre, p y = false) (hx : p x = true) :
    JsonStore.updateFirst p m (pre ++ x :: post) = some (m x, pre ++ m x :: post) := by
  induction pre with
  | nil => simp [JsonStore.updateFirst, hx]
  | cons a pre ih =>
    have ha : p a = false := hpre a (by simp)
    have ih' := ih (fun y hy => hpre y (by simp [hy]))
    simp [JsonStore.updateFirst, ha, ih']

theorem find?_append_first {α : Type} (p : α → Bool)
    (pre post : List α) (x : α) (hpre : ∀ y ∈ pre, p y = false) (hx : p x = true) :
    (pre ++ x :: post).find? p = some x := by
  induction pre with
  | nil => simp [List.find?, hx]
  | cons a pre ih =>
    have ha : p a = false := hpre a (by simp)
    have ih' := ih (fun y hy => hpre y (by simp [hy]))
    simp [List.find?, ha, ih']

theorem first_match_decomp {α : Type} (p : α → Bool) :
    ∀ (l : List α) (x : α), x ∈ l → p x = true →
      ∃ pre y post, l = pre ++ y :: post ∧ (∀ z ∈ pre, p z = false) ∧ p y = true := by
  intro l
  induction l with
  | nil => intro x hx; cases hx
  | cons a l ih =>
    intro x hx hpx
    by_cases ha : p a
    · exact ⟨[], a, l, by simp, by simp, ha⟩
    · rcases List.mem_cons.mp hx with rfl | hx'
      · exact absurd hpx (by simpa using ha)
      · obtain ⟨pre, y, post, hl, hpre, hy⟩ := ih x hx' hpx
        refine ⟨a :: pre, y, post, by simp [hl], ?_, hy⟩
        intro z hz
        rcases List.mem_cons.mp hz with rfl | hz'
        · simpa using ha
        · exact hpre z hz'

/-- Deterministic computation of `modifyById` when the first-match
decomposition of the list is known. -/
theorem modifyById_spec {α : Type} (getId : α → Nat) (d : List α) (id : Nat)
    (transform : α → α) (msg : String) (pre post : List α) (y : α)
    (hpre : ∀ z ∈ pre, getId z ≠ id) (hy : getId y = id) :
    JsonStore.modifyById getId ⟨some (pre ++ y :: post)⟩ d id transform msg =
      .ok (transform y, ⟨some (pre ++ transform y :: post)⟩) := by
  have hpre' : ∀ z ∈ pre, (getId z == id) = false := by
    intro z hz; simpa using hpre z hz
  have hy' : (getId y == id) = true := by simpa using hy
  have hfind := find?_append_first (fun z => getId z == id) pre post y hpre' hy'
  have hupd := updateFirst_append (fun z => getId z == id) (fun _ => transform y)
    pre post y hpre' hy'
  simp [JsonStore.modifyById, JsonStore.getById, JsonStore.read, JsonStore.update,
    JsonStore.write, hfind, hupd]

/-- `modifyById` succeeds whenever some record carries the id, and the result
is the transform of the first such record, written back in place. -/
theorem modifyById_rich {α : Type} (getId : α → Nat) (d : List α) (id : Nat)
    (transform : α → α) (msg : String) (l : List α) (x : α)
    (hx : x ∈ l) (hid : getId x = id) :
    ∃ pre y post, l = pre ++ y :: post ∧ (∀ z ∈ pre, getId z ≠ id) ∧ getId y = id ∧
      JsonStore.modifyById getId ⟨some l⟩ d id transform msg =
        .ok (transform y, ⟨some (pre ++ transform y :: post)⟩) := by
  obtain ⟨pre, y, post, hl, hpre, hy⟩ :=
    first_match_decomp (fun z => getId z == id) l x hx (by simpa using hid)
  have hpre' : ∀ z ∈ pre, getId z ≠ id := by
    intro z hz; simpa using hpre z hz
  have hy' : getId y = id := by simpa using hy
  exact ⟨pre, y, post, hl, hpre', hy', hl ▸ modifyById_spec getId d id transform msg pre post y hpre' hy'⟩

/-! ### Per-operation first-match specifications -/

@[simp] theorem exceptBind_ok {ε α β : Type} (x : α) (f : α → Except ε β) :
    (Except.ok x >>= f) = f x := rfl

@[simp] theorem exceptMap_ok {ε α β : Type} (g : α → β) (x : α) :
    (g <$> (Except.ok x : Except ε α)) = Except.ok (g x) := rfl

theorem addMessage_spec (now cid : Nat) (role : String) (content : Option String)
    (confidence : Option Rat) (intent : Option String) (pre post : List Conv) (c : Conv)
    (hpre : ∀ z ∈ pre, z.id ≠ cid) (hc : c.id = cid) :
    Conversation.addMessage ⟨some (pre ++ c :: post)⟩ now cid role content confidence intent =
      .ok (Conversation.addMsgTransform now
            (Conversation.mkMsg now role content confidence intent) c,
        ⟨some (pre ++ Conversation.addMsgTransform now
            (Conversation.mkMsg now role content confidence intent) c :: post)⟩) :=
  modifyById_spec Conversation.getId [] cid _ _ pre post c hpre hc

theorem updateState_spec (now cid : Nat) (newState : String)
    (ctxMerge : Context → Context) (pre post : List Conv) (c : Conv)
    (hpre : ∀ z ∈ pre, z.id ≠ cid) (hc : c.id = cid) :
    Conversation.updateState ⟨some (pre ++ c :: post)⟩ now cid newState ctxMerge =
      .ok (Conversation.updateStateTransform now newState ctxMerge c,
        ⟨some (pre ++ Conversation.updateStateTransform now newState ctxMerge c :: post)⟩) :=
  modifyById_spec Conversation.getId [] cid _ _ pre post c hpre hc

theorem handoff_spec (now cid : Nat) (reason : String) (pre post : List Conv) (c : Conv)
    (hpre : ∀ z ∈ pre, z.id ≠ cid) (hc : c.id = cid) :
    Conversation.handoff ⟨some (pre ++ c :: post)⟩ now cid reason =
      .ok (Conversation.handoffTransform now reason c,
        ⟨some (pre ++ Conversation.handoffTransform now reason c :: post)⟩) :=
  modifyById_spec Conversation.getId [] cid _ _ pre post c hpre hc

theorem updateQualification_spec (now id : Nat) (qd : LeadModel.QualUpdates)
    (pre post : List Lead) (x : Lead)
    (hpre : ∀ z ∈ pre, z.id ≠ id) (hx : x.id = id) :
    LeadModel.updateQualification ⟨some (pre ++ x :: post)⟩ now id qd =
      .ok (LeadModel.applyQualUpdates now qd x,
        ⟨some (pre ++ LeadModel.applyQualUpdates now qd x :: post)⟩) :=
  modifyById_spec LeadModel.getId [] id _ _ pre post x hpre hx

@[simp] theorem addMsgTransform_id (now : Nat) (m : Msg) (c : Conv) :
    (Conversation.addMsgTransform now m c).id = c.id := rfl

@[simp] theorem addMsgTransform_state (now : Nat) (m : Msg) (c : Conv) :
    (Conversation.addMsgTransform now m c).state = c.state := rfl

@[simp] theorem addMsgTransform_createdAt (now : Nat) (m : Msg) (c : Conv) :
    (Conversation.addMsgTransform now m c).createdAt = c.createdAt := rfl

@[simp] theorem addMsgTransform_handoffReason (now : Nat) (m : Msg) (c : Conv) :
    (Conversation.addMsgTransform now m c).handoffReason = c.handoffReason := rfl

@[simp] theorem addMsgTransform_context (now : Nat) (m : Msg) (c : Conv) :
    (Conversation.addMsgTransform now m c).context = c.context := rfl

@[simp] theorem updateStateTransform_id (now : Nat) (s : String) (g : Context → Context)
    (c : Conv) : (Conversation.updateStateTransform now s g c).id = c.id := rfl

@[simp] theorem updateStateTransform_state (now : Nat) (s : String) (g : Context → Context)
    (c : Conv) : (Conversation.updateStateTransform now s g c).state = s := rfl

@[simp] theorem updateStateTransform_createdAt (now : Nat) (s : String)
    (g : Context → Context) (c : Conv) :
    (Conversation.updateStateTransform now s g c).createdAt = c.createdAt := rfl

@[simp] theorem handoffTransform_id (now : Nat) (r : String) (c : Conv) :
    (Conversation.handoffTransform now r c).id = c.id := rfl

@[simp] theorem handoffTransform_state (now : Nat) (r : String) (c : Conv) :
    (Conversation.handoffTransform now r c).state = "HANDOFF" := rfl

@[simp] theorem handoffTransform_handoffReason (now : Nat) (r : String) (c : Conv) :
    (Conversation.handoffTransform now r c).handoffReason = some r := rfl

@[simp] theorem handoffTransform_createdAt (now : Nat) (r : String) (c : Conv) :
    (Conversation.handoffTransform now r c).createdAt = c.createdAt := rfl

@[simp] theorem applyQualUpdates_id (now : Nat) (qd : LeadModel.QualUpdates) (x : Lead) :
    (LeadModel.applyQualUpdates now qd x).id = x.id := rfl

/-! ## C2 — JsonStore reads and rewrites the file wholesale -/

/-- C2: every JsonStore operation is wholesale: `getAll`/`getById` parse the
entire file; `add(item)` writes back the entire previous list with `item`
appended; `update(id, updates)` writes back the entire list with the first
matching record merged in place (and writes nothing when no record matches);
`delete(id)` writes back the entire filtered list (and writes nothing when
nothing was removed).  No operation reads or writes part of the file. -/
theorem C2_jsonstore_wholesale {α : Type} (getId : α → Nat) (f : JFile α)
    (d : List α) (item : α) (id : Nat) (merge : α → α) :
    (JsonStore.getAll f d).1 = (JsonStore.read f d).1 ∧
    (JsonStore.getById getId f d id).1 =
      ((JsonStore.read f d).1.find? (fun x => getId x == id)) ∧
    (JsonStore.add f d item).2.contents = some ((JsonStore.read f d).1 ++ [item]) ∧
    (∀ r items',
      JsonStore.updateFirst (fun x => getId x == id) merge (JsonStore.read f d).1 =
          some (r, items') →
        (JsonStore.update getId f d id merge).2.contents = some items' ∧
        ∃ pre x post, (JsonStore.read f d).1 = pre ++ x :: post ∧
          (∀ y ∈ pre, getId y ≠ id) ∧ getId x = id ∧ r = merge x ∧
          items' = pre ++ merge x :: post) ∧
    (JsonStore.updateFirst (fun x => getId x == id) merge (JsonStore.read f d).1 = none →
      (JsonStore.update getId f d id merge).2 = (JsonStore.read f d).2) ∧
    (((JsonStore.read f d).1.filter (fun x => !(getId x == id))).length ≠
        (JsonStore.read f d).1.length →
      (JsonStore.delete getId f d id).2.contents =
        some ((JsonStore.read f d).1.filter (fun x => !(getId x == id)))) ∧
    (((JsonStore.read f d).1.filter (fun x => !(getId x == id))).length =
        (JsonStore.read f d).1.length →
      (JsonStore.delete getId f d id).2 = (JsonStore.read f d).2) := by
  refine ⟨rfl, ?_, ?_, ?_, ?_, ?_, ?_⟩
  · simp [JsonStore.getById]
  · simp [JsonStore.add, JsonStore.write]
  · intro r items' h
    constructor
    · simp [JsonStore.update, h, JsonStore.write]
    · obtain ⟨pre, x, post, hl, hpre, hx, hr, hitems⟩ :=
        updateFirst_some_spec (fun x => getId x == id) merge (JsonStore.read f d).1 r items' h
      exact ⟨pre, x, post, hl, fun y hy => by simpa using hpre y hy, by simpa using hx,
        hr, hitems⟩
  · intro h
    simp [JsonStore.update, h]
  · intro h
    simp only [JsonStore.delete]
    rw [if_neg (by simpa using h)]
    simp [JsonStore.write]
  · intro h
    simp only [JsonStore.delete]
    rw [if_pos (by simpa using h)]

/-- Witness for C2 at a concrete store: updating id 5 in the file `[3, 5]`
merges the matching record and rewrites the whole list. -/
theorem C2_jsonstore_wholesale_witness :
    JsonStore.updateFirst (fun x : Nat => x == 5) (fun x => x + 1) [3, 5] =
        some (6, [3, 6]) ∧
    (JsonStore.update (fun x : Nat => x) (⟨some [3, 5]⟩ : JFile Nat) [] 5
        (fun x => x + 1)).2.contents = some [3, 6] ∧
    (JsonStore.add (⟨some [3, 5]⟩ : JFile Nat) [] 7).2.contents = some [3, 5, 7] := by
  refine ⟨by decide, ?_, ?_⟩
  · exact ((C2_jsonstore_wholesale (fun x : Nat => x) ⟨some [3, 5]⟩ [] 7 5
      (fun x => x + 1)).2.2.2.1 6 [3, 6] (by decide)).1
  · exact (C2_jsonstore_wholesale (fun x : Nat => x) ⟨some [3, 5]⟩ [] 7 5
      (fun x => x + 1)).2.2.1

/-! ## C4 — the analytics metrics TTL cache -/

/-- C4: `getMetrics` returns the cached metrics object whenever a cache entry
exists and its expiry lies strictly after the current time; otherwise it
recomputes the metrics from the full event log and caches the result with a
5-minute (300000 ms) expiry; `logEvent` appends to the event log and
invalidates the cache by clearing both the cached object and the expiry. -/
theorem C4_analytics_cache (a : Analytics) (now : Nat) (options : MetricsOptions)
    (type : String) (leadId conversationId : Option Nat) (channel : Option String)
    (data : EventData) :
    (∀ m t, a.metricsCache = some m → a.cacheExpiry = some t → now < t →
      AnalyticsService.getMetrics a now options = (m, a)) ∧
    ((a.metricsCache = none ∨ a.cacheExpiry.getD 0 ≤ now) →
      AnalyticsService.getMetrics a now options =
        (AnalyticsService.computeMetrics
            (AnalyticsService.applyFilters (JsonStore.getAll a.store []).1 options) now,
          { store := (JsonStore.getAll a.store []).2
            metricsCache := some (AnalyticsService.computeMetrics
              (AnalyticsService.applyFilters (JsonStore.getAll a.store []).1 options) now)
            cacheExpiry := some (now + 5 * 60 * 1000) })) ∧
    (AnalyticsService.logEvent a now type leadId conversationId channel data).2.metricsCache =
      none ∧
    (AnalyticsService.logEvent a now type leadId conversationId channel data).2.cacheExpiry =
      none ∧
    (AnalyticsService.logEvent a now type leadId conversationId channel data).2.store.contents =
      some ((JsonStore.read a.store []).1 ++
        [(AnalyticsService.logEvent a now type leadId conversationId channel data).1]) := by
  refine ⟨?_, ?_, ?_, ?_, ?_⟩
  · intro m t hm ht hlt
    simp [AnalyticsService.getMetrics, hm, ht, hlt]
  · intro h
    cases hm : a.metricsCache with
    | none => simp [AnalyticsService.getMetrics, hm]
    | some m =>
      have ht : a.cacheExpiry.getD 0 ≤ now := by
        rcases h with h | h
        · rw [hm] at h; cases h
        · exact h
      have : ¬ now < a.cacheExpiry.getD 0 := Nat.not_lt.mpr ht
      simp [AnalyticsService.getMetrics, hm, this]
  · simp [AnalyticsService.logEvent, AnalyticsService.invalidateCache]
  · simp [AnalyticsService.logEvent, AnalyticsService.invalidateCache]
  · simp [AnalyticsService.logEvent, AnalyticsService.invalidateCache, JsonStore.add,
      JsonStore.write]

/-- Witness for C4: a valid cache entry at time 5 with expiry 10 is returned
as-is, and `logEvent` clears the cache. -/
theorem C4_analytics_cache_witness :
    AnalyticsService.getMetrics
        ⟨⟨some []⟩, some (AnalyticsService.computeMetrics [] 0), some 10⟩ 5
        ⟨none, none, none⟩ =
      (AnalyticsService.computeMetrics [] 0,
        ⟨⟨some []⟩, some (AnalyticsService.computeMetrics [] 0), some 10⟩) ∧
    (AnalyticsService.logEvent
        ⟨⟨some []⟩, some (AnalyticsService.computeMetrics [] 0), some 10⟩ 5
        "lead_created" none none none .empty).2.metricsCache = none := by
  have h := C4_analytics_cache
    ⟨⟨some []⟩, some (AnalyticsService.computeMetrics [] 0), some 10⟩ 5
    ⟨none, none, none⟩ "lead_created" none none none .empty
  exact ⟨h.1 (AnalyticsService.computeMetrics [] 0) 10 rfl rfl (by decide), h.2.2.1⟩

/-! ## C9 — a valid cache makes `getMetrics` ignore its filters -/

/-- C9: if a `getMetrics` call with options `A` populates the cache (cache
miss), then any `getMetrics` call strictly within the 5-minute TTL and with no
intervening `logEvent` returns the identical cached metrics object and leaves
the service state unchanged, whatever filter options `B` it is passed — the
second call's `startDate`/`endDate`/`channel` have no effect. -/
theorem C9_cache_ignores_filters (a : Analytics) (now₁ now₂ : Nat)
    (A B : MetricsOptions) (hmiss : a.metricsCache = none)
    (h₂ : now₂ < now₁ + 5 * 60 * 1000) :
    (AnalyticsService.getMetrics (AnalyticsService.getMetrics a now₁ A).2 now₂ B).1 =
      (AnalyticsService.getMetrics a now₁ A).1 ∧
    (AnalyticsService.getMetrics (AnalyticsService.getMetrics a now₁ A).2 now₂ B).2 =
      (AnalyticsService.getMetrics a now₁ A).2 := by
  have h₁ : AnalyticsService.getMetrics a now₁ A =
      (AnalyticsService.computeMetrics
          (AnalyticsService.applyFilters (JsonStore.getAll a.store []).1 A) now₁,
        { store := (JsonStore.getAll a.store []).2
          metricsCache := some (AnalyticsService.computeMetrics
            (AnalyticsService.applyFilters (JsonStore.getAll a.store []).1 A) now₁)
          cacheExpiry := some (now₁ + 5 * 60 * 1000) }) := by
    simp [AnalyticsService.getMetrics, hmiss]
  rw [h₁]
  constructor <;> simp [AnalyticsService.getMetrics, h₂]

/-- Witness for C9: populate at time 0 with no filters, query at time 1 with a
start date and channel filter; the cached object comes back unchanged. -/
theorem C9_cache_ignores_filters_witness :
    (AnalyticsService.getMetrics
        (AnalyticsService.getMetrics ⟨⟨some []⟩, none, none⟩ 0 ⟨none, none, none⟩).2 1
        ⟨some 99, none, some "sms"⟩).1 =
      (AnalyticsService.getMetrics ⟨⟨some []⟩, none, none⟩ 0 ⟨none, none, none⟩).1 :=
  (C9_cache_ignores_filters ⟨⟨some []⟩, none, none⟩ 0 1 ⟨none, none, none⟩
    ⟨some 99, none, some "sms"⟩ rfl (by decide)).1

/-! ## C10 — forbidden topics short-circuit the LLM -/

/-- C10: when the lowercased user message contains a `FORBIDDEN_TOPICS` entry
as a substring, `generateResponse` returns the fixed handoff result
(`shouldHandoff = true`, `handoffReason = 'forbidden_topic'`,
`confidence = 1.0`) regardless of conversation state, and the LLM oracle is
never consulted: the result is the same for every oracle outcome. -/
theorem C10_forbidden_topic (msg : String) (context : AIReasoningService.AICtx)
    (threshold : Rat) (outcome : AIReasoningService.LLMOutcome)
    (h : AIReasoningService.containsForbiddenTopic msg = true) :
    AIReasoningService.generateResponse msg context outcome threshold =
      AIReasoningService.forbiddenTopicResult ∧
    AIReasoningService.forbiddenTopicResult.shouldHandoff = true ∧
    AIReasoningService.forbiddenTopicResult.handoffReason = some "forbidden_topic" ∧
    AIReasoningService.forbiddenTopicResult.confidence = 1 ∧
    (∀ outcome', AIReasoningService.generateResponse msg context outcome' threshold =
      AIReasoningService.generateResponse msg context outcome threshold) := by
  refine ⟨?_, rfl, rfl, by norm_num [AIReasoningService.forbiddenTopicResult], ?_⟩
  · simp [AIReasoningService.generateResponse, h]
  · intro outcome'
    simp [AIReasoningService.generateResponse, h]

/-- Witness for C10 on the message "can you reduce rent" in the GREETING
state with a successful LLM outcome standing by (and ignored). -/
theorem C10_forbidden_topic_witness :
    AIReasoningService.containsForbiddenTopic "Can you REDUCE RENT for me?" = true ∧
    AIReasoningService.generateResponse "Can you REDUCE RENT for me?"
        ⟨"GREETING", [], ⟨none, none, none⟩⟩
        (.ok ⟨some "sure", some 0.9, some "budget", ⟨none, none, none⟩, false, none⟩)
        0.7 =
      AIReasoningService.forbiddenTopicResult :=
  ⟨by decide,
   (C10_forbidden_topic "Can you REDUCE RENT for me?" ⟨"GREETING", [], ⟨none, none, none⟩⟩
     0.7 (.ok ⟨some "sure", some 0.9, some "budget", ⟨none, none, none⟩, false, none⟩)
     (by decide)).1⟩

/-! ## C7 — contact-form validation -/

/-- C7: the contact-form submission rejects with HTTP 400 and code
`VALIDATION_ERROR` exactly when `name`, `email` or `message` is missing
(absent or empty — JS falsiness) or the email fails the email regex; in the
rejection case the message store is untouched; otherwise it creates the
record and responds 201 with the created record appended to the whole
store. -/
theorem C7_contact_validation (now : Nat) (req : MessageRoutes.ContactRequest)
    (f : JFile MessageRoutes.StoredMessage) :
    (((MessageRoutes.postMessage now req f).1.status = 400 ∧
      (MessageRoutes.postMessage now req f).1.code = some "VALIDATION_ERROR") ↔
      (truthyS req.name = false ∨ truthyS req.email = false ∨
       truthyS req.message = false ∨
       MessageRoutes.emailRegexTest (req.email.getD "") = false)) ∧
    ((MessageRoutes.postMessage now req f).1.status = 400 →
      (MessageRoutes.postMessage now req f).2 = f) ∧
    (truthyS req.name = true → truthyS req.email = true → truthyS req.message = true →
      MessageRoutes.emailRegexTest (req.email.getD "") = true →
      (MessageRoutes.postMessage now req f).1.status = 201 ∧
      (MessageRoutes.postMessage now req f).1.success = true ∧
      ∃ m, (MessageRoutes.postMessage now req f).1.data = some m ∧
        (MessageRoutes.postMessage now req f).2.contents =
          some ((JsonStore.read f []).1 ++ [m])) := by
  by_cases h1 : truthyS req.name <;> by_cases h2 : truthyS req.email <;>
    by_cases h3 : truthyS req.message <;>
    by_cases h4 : MessageRoutes.emailRegexTest (req.email.getD "") <;>
    simp [MessageRoutes.postMessage, MessageRoutes.create, JsonStore.write, h1, h2, h3, h4]

/-- Witness for C7: a fully valid request is accepted with 201 and appended;
a request with a bad email is rejected 400 leaving the store unchanged. -/
theorem C7_contact_validation_witness :
    (MessageRoutes.postMessage 9
        ⟨some "Ann", some "ann@example.com", none, none, some "hello", none⟩
        ⟨some []⟩).1.status = 201 ∧
    (MessageRoutes.postMessage 9
        ⟨some "Ann", some "not-an-email", none, none, some "hello", none⟩
        ⟨some []⟩).1.status = 400 ∧
    (MessageRoutes.postMessage 9
        ⟨some "Ann", some "not-an-email", none, none, some "hello", none⟩
        ⟨some []⟩).2 = ⟨some []⟩ := by
  have hok := (C7_contact_validation 9
    ⟨some "Ann", some "ann@example.com", none, none, some "hello", none⟩ ⟨some []⟩).2.2
    (by decide) (by decide) (by decide) (by decide)
  have hbad := C7_contact_validation 9
    ⟨some "Ann", some "not-an-email", none, none, some "hello", none⟩ ⟨some []⟩
  refine ⟨hok.1, ?_, ?_⟩
  · exact ((hbad.1.mpr (by right; right; right; decide)).1)
  · exact hbad.2.1 ((hbad.1.mpr (by right; right; right; decide)).1)

/-- Inversion for `extractBudget`: a successful extraction is always a
formatted amount in `[1000, 100000]`. -/
theorem extractBudget_some_inv (body b : String) (h : extractBudget body = some b) :
    ∃ amount, 1000 ≤ amount ∧ amount ≤ 100000 ∧ b = "R" ++ natLocaleString amount := by
  unfold extractBudget at h
  cases hcap : budgetCapture body.toList with
  | none => rw [hcap] at h; cases h
  | some cap =>
    rw [hcap] at h
    split at h
    next hrange => simp at hrange
    next cap₂ hrange =>
      injection hrange with hcc
      subst hcc
      simp only [Bool.and_eq_true, decide_eq_true_eq] at h
      split at h
      next hr =>
        exact ⟨digitsToNat (cap.filter Char.isDigit), hr.1, hr.2,
          (Option.some.inj h).symm⟩
      next => cases h

/-! ## C6 — the GREETING → QUALIFICATION budget gate -/

/-- C6: in template mode, a conversation in the GREETING state transitions to
QUALIFICATION exactly when `extractBudget` matches — i.e. the budget regex
matches and the extracted integer (digits with commas/whitespace removed) lies
in `[1000, 100000]` — in which case the lead's budget is recorded as the
formatted `R`-amount and the location question is returned; otherwise the
conversation state is unchanged and the budget re-prompt is returned. -/
theorem C6_greeting_budget_gate (env : ConversationService.Env) (now : Nat)
    (body : String) (conversation : Conv) (lead : Lead) (channel : String)
    (cpre cpost : List Conv) (lpre lpost : List Lead) (analytics : Analytics)
    (sys : ConversationService.SysState)
    (hsys : sys = ⟨⟨some (lpre ++ lead :: lpost)⟩,
      ⟨some (cpre ++ conversation :: cpost)⟩, analytics⟩)
    (hstate : conversation.state = "GREETING")
    (hcpre : ∀ z ∈ cpre, z.id ≠ conversation.id)
    (hlpre : ∀ z ∈ lpre, z.id ≠ lead.id) :
    (∀ b, extractBudget body = some b →
      (∃ amount, 1000 ≤ amount ∧ amount ≤ 100000 ∧ b = "R" ++ natLocaleString amount) ∧
      (LeadModel.applyQualUpdates now ⟨some b, none, none⟩ lead).qualificationData.budget =
        some b ∧
      ∃ sys' c₂,
        ConversationService.processWithTemplates env now body conversation lead channel sys =
          .ok (some ConversationService.askLocationTemplate, sys') ∧
        sys'.leads.contents =
          some (lpre ++ LeadModel.applyQualUpdates now ⟨some b, none, none⟩ lead :: lpost) ∧
        sys'.conversations.contents = some (cpre ++ c₂ :: cpost) ∧
        c₂.id = conversation.id ∧ c₂.state = "QUALIFICATION") ∧
    (extractBudget body = none →
      ∃ sys' c₂,
        ConversationService.processWithTemplates env now body conversation lead channel sys =
          .ok (some "I didn't catch your budget. Could you tell me how much you're looking to spend on rent per month? (e.g., \"R5000\" or \"around R8000\")", sys') ∧
        sys'.leads = sys.leads ∧
        sys'.conversations.contents = some (cpre ++ c₂ :: cpost) ∧
        c₂.id = conversation.id ∧ c₂.state = conversation.state) := by
  subst hsys
  constructor
  · intro b hb
    refine ⟨?_, ?_, ?_⟩
    · exact extractBudget_some_inv body b hb
    · simp [LeadModel.applyQualUpdates]
    · have h1 := updateQualification_spec now lead.id ⟨some b, none, none⟩
        lpre lpost lead hlpre rfl
      have h2 := updateState_spec now conversation.id "QUALIFICATION"
        (ConversationService.applyCtxUpdates
          ⟨some (some "location"),
           some ⟨some b, conversation.context.collectedData.location,
              conversation.context.collectedData.moveInDate⟩⟩)
        cpre cpost conversation hcpre rfl
      have h3 := addMessage_spec now conversation.id "assistant"
        (some ConversationService.askLocationTemplate) (some 0.8) none cpre cpost
        (Conversation.updateStateTransform now "QUALIFICATION"
          (ConversationService.applyCtxUpdates
            ⟨some (some "location"),
             some ⟨some b, conversation.context.collectedData.location,
              conversation.context.collectedData.moveInDate⟩⟩)
          conversation)
        (by simpa using hcpre) rfl
      refine ⟨⟨⟨some (lpre ++
          LeadModel.applyQualUpdates now ⟨some b, none, none⟩ lead :: lpost)⟩,
        ⟨some (cpre ++ Conversation.addMsgTransform now
            (Conversation.mkMsg now "assistant"
              (some ConversationService.askLocationTemplate) (some 0.8) none)
            (Conversation.updateStateTransform now "QUALIFICATION"
              (ConversationService.applyCtxUpdates
                ⟨some (some "location"),
                 some ⟨some b, conversation.context.collectedData.location,
              conversation.context.collectedData.moveInDate⟩⟩)
              conversation) :: cpost)⟩,
        ConversationService.logQualificationStep analytics now lead "budget" b⟩,
        _, ?_, rfl, rfl, by simp, by simp⟩
      simp [ConversationService.processWithTemplates, hstate, hb, h1, h2, h3]
  · intro hb
    have h3 := addMessage_spec now conversation.id "assistant"
      (some "I didn't catch your budget. Could you tell me how much you're looking to spend on rent per month? (e.g., \"R5000\" or \"around R8000\")")
      (some 0.8) none cpre cpost conversation hcpre rfl
    refine ⟨⟨⟨some (lpre ++ lead :: lpost)⟩,
      ⟨some (cpre ++ Conversation.addMsgTransform now
          (Conversation.mkMsg now "assistant"
            (some "I didn't catch your budget. Could you tell me how much you're looking to spend on rent per month? (e.g., \"R5000\" or \"around R8000\")")
            (some 0.8) none) conversation :: cpost)⟩,
      analytics⟩, _, ?_, rfl, rfl, by simp, by simp⟩
    simp [ConversationService.processWithTemplates, hstate, hb, h3,
      ConversationService.CtxUpdates.nonEmptyKeys]

/-! ### Sample fixtures for concrete witnesses -/

/-- A minimal conversation record in a given state. -/
def sampleConv (state : String) : Conv :=
  ⟨1, 1, "sms", state, ⟨none, ⟨none, none, none⟩, 0, none, none⟩, [], none, none, none, 1, 1⟩

/-- A minimal lead record. -/
def sampleLead : Lead :=
  ⟨1, "+27821234567", none, none, "sms", "new", none, ⟨none, none, none, none, false⟩, 1, 1⟩

/-- Environment with no Twilio phone, no base URL and no LLM key. -/
def sampleEnv : ConversationService.Env := ⟨none, none, false, 0.7⟩

/-- Environment with the LLM configured. -/
def sampleEnvAI : ConversationService.Env := ⟨some "+27110000000", none, true, 0.7⟩

/-- Fresh analytics state over an empty (existing) event file. -/
def emptyAnalytics : Analytics := ⟨⟨some []⟩, none, none⟩

/-- System state over empty stores. -/
def emptySys : ConversationService.SysState := ⟨⟨none⟩, ⟨none⟩, emptyAnalytics⟩

/-- A constant intent detector (`detectIntent` is metadata only). -/
def unknownIntent : String → String := fun _ => "unknown"

/-- Witness for C6: in the singleton stores, the message "R5000" moves the
GREETING conversation to QUALIFICATION, records budget `R5,000` on the lead
and returns the location question. -/
theorem C6_greeting_budget_gate_witness :
    extractBudget "R5000" = some "R5,000" ∧
    ∃ sys' c₂,
      ConversationService.processWithTemplates sampleEnv 2 "R5000" (sampleConv "GREETING")
          sampleLead "sms"
          ⟨⟨some ([] ++ sampleLead :: [])⟩, ⟨some ([] ++ sampleConv "GREETING" :: [])⟩,
            emptyAnalytics⟩ =
        .ok (some ConversationService.askLocationTemplate, sys') ∧
      sys'.leads.contents =
        some ([] ++ LeadModel.applyQualUpdates 2 ⟨some "R5,000", none, none⟩ sampleLead :: []) ∧
      sys'.conversations.contents = some ([] ++ c₂ :: []) ∧
      c₂.id = (sampleConv "GREETING").id ∧ c₂.state = "QUALIFICATION" := by
  have h := (C6_greeting_budget_gate sampleEnv 2 "R5000" (sampleConv "GREETING") sampleLead
    "sms" [] [] [] [] emptyAnalytics _ rfl rfl (by simp) (by simp)).1 "R5,000" (by decide)
  exact ⟨by decide, h.2.2⟩

/-! ### Non-emptiness toolkit for the response strings -/

theorem toList_cons_ne_empty (s : String) (c : Char) (t : List Char)
    (h : s.toList = c :: t) : s ≠ "" := by
  intro hs
  rw [hs] at h
  cases h

theorem replaceFirstList_head_ne (p₀ : Char) (pr repl : List Char) (h₀ : Char)
    (hr : List Char) (hne : (p₀ == h₀) = false) :
    replaceFirstList (p₀ :: pr) repl (h₀ :: hr) =
      h₀ :: replaceFirstList (p₀ :: pr) repl hr := by
  simp [replaceFirstList, List.isPrefixOf, hne]

theorem strReplace_head (s pat repl : String) (h₀ p₀ : Char) (t pt : List Char)
    (hs : s.toList = h₀ :: t) (hp : pat.toList = p₀ :: pt) (hne : (p₀ == h₀) = false) :
    (strReplace s pat repl).toList = h₀ :: replaceFirstList (p₀ :: pt) repl.toList t := by
  unfold strReplace
  rw [show s.toList = h₀ :: t from hs, show pat.toList = p₀ :: pt from hp,
    replaceFirstList_head_ne p₀ pt repl.toList h₀ t hne]
  rfl

theorem strReplace_ne_empty (s pat repl : String) (h₀ p₀ : Char) (t pt : List Char)
    (hs : s.toList = h₀ :: t) (hp : pat.toList = p₀ :: pt) (hne : (p₀ == h₀) = false) :
    strReplace s pat repl ≠ "" :=
  toList_cons_ne_empty _ h₀ _ (strReplace_head s pat repl h₀ p₀ t pt hs hp hne)

theorem orElseS_ne_empty (x : Option String) (d : String) (hd : d ≠ "") :
    orElseS x d ≠ "" := by
  cases x with
  | none => simpa [orElseS] using hd
  | some s =>
    by_cases hs : s == ""
    · simpa [orElseS, hs] using hd
    · simpa [orElseS, hs] using (by simpa using hs : ¬ s = "")

theorem strAppend_ne_empty (a b : String) (ha : a ≠ "") : a ++ b ≠ "" := by
  intro h
  apply ha
  cases a with
  | mk da =>
    cases b with
    | mk db =>
      have : da ++ db = [] := congrArg String.data h
      have hda : da = [] := List.append_eq_nil.mp this |>.1
      simp [hda]

/-! ### Resolution lemmas for `processMessage` -/

theorem resolveLead_spec (now : Nat) (sender channel : String)
    (sys : ConversationService.SysState) (lead : Lead)
    (sys₁ : ConversationService.SysState)
    (h : ConversationService.resolveLead now sender channel sys = (lead, sys₁)) :
    ∃ ll a₁, sys₁ = ⟨⟨some ll⟩, sys.conversations, a₁⟩ ∧ (∃ x ∈ ll, x.id = lead.id) ∧
      (∀ l₀, (LeadModel.findByPhone sys.leads sender).1 = some l₀ → lead = l₀) := by
  obtain ⟨⟨slc⟩, sc, sa⟩ := sys
  cases slc with
  | none =>
    simp only [ConversationService.resolveLead, LeadModel.findByPhone, JsonStore.getAll,
      JsonStore.read, JsonStore.write, LeadModel.create, JsonStore.add, List.find?_nil,
      List.nil_append, Prod.mk.injEq] at h
    obtain ⟨hlead, hsys⟩ := h
    subst hlead
    subst hsys
    refine ⟨_, _, rfl, by simp, ?_⟩
    intro l₀ hl₀
    simp [LeadModel.findByPhone, JsonStore.getAll, JsonStore.read] at hl₀
  | some ll0 =>
    cases hf : ll0.find?
        (fun l => LeadModel.normalizePhone l.phone == LeadModel.normalizePhone sender) with
    | some l₀ =>
      simp only [ConversationService.resolveLead, LeadModel.findByPhone, JsonStore.getAll,
        JsonStore.read, hf, Prod.mk.injEq] at h
      obtain ⟨hlead, hsys⟩ := h
      subst hlead
      subst hsys
      refine ⟨ll0, sa, rfl, ⟨l₀, List.mem_of_find?_eq_some hf, rfl⟩, ?_⟩
      intro l₁ hl₁
      simp only [LeadModel.findByPhone, JsonStore.getAll, JsonStore.read, hf] at hl₁
      exact Option.some.inj hl₁
    | none =>
      simp only [ConversationService.resolveLead, LeadModel.findByPhone, JsonStore.getAll,
        JsonStore.read, hf, LeadModel.create, JsonStore.add, Prod.mk.injEq] at h
      obtain ⟨hlead, hsys⟩ := h
      subst hlead
      subst hsys
      refine ⟨_, _, rfl, by simp; exact ⟨_, Or.inr rfl, rfl⟩, ?_⟩
      intro l₀ hl₀
      simp only [LeadModel.findByPhone, JsonStore.getAll, JsonStore.read, hf] at hl₀
      cases hl₀

theorem resolveConversation_spec (now : Nat) (channel : String) (lead : Lead)
    (sys₁ : ConversationService.SysState) (conversation : Conv)
    (sys₂ : ConversationService.SysState)
    (h : ConversationService.resolveConversation now channel lead sys₁ =
      (conversation, sys₂)) :
    ∃ lc a₂, sys₂ = ⟨sys₁.leads, ⟨some lc⟩, a₂⟩ ∧
      (∃ x ∈ lc, x.id = conversation.id) ∧
      (conversation ∈ sys₁.conversations.contents.getD [] ∨
        (conversation.state = "NEW_LEAD" ∧
         conversation.context = ⟨none, ⟨none, none, none⟩, 0, none, none⟩ ∧
         conversation.id = now ∧ conversation.createdAt = now)) ∧
      (∀ c ∈ lc, c ∈ sys₁.conversations.contents.getD [] ∨ c = conversation) ∧
      (∀ lc0, sys₁.conversations.contents = some lc0 →
        (Conversation.findActiveByLeadId sys₁.conversations lead.id).1 = none →
        lc = lc0 ++ [conversation] ∧ conversation.id = now ∧
        conversation.createdAt = now ∧ conversation.state = "NEW_LEAD") := by
  obtain ⟨sl, ⟨scc⟩, sa⟩ := sys₁
  cases scc with
  | none =>
    simp only [ConversationService.resolveConversation, Conversation.findActiveByLeadId,
      JsonStore.getAll, JsonStore.read, JsonStore.write, Conversation.create, JsonStore.add,
      List.find?_nil, List.nil_append, Prod.mk.injEq] at h
    obtain ⟨hconv, hsys⟩ := h
    subst hconv
    subst hsys
    refine ⟨_, _, rfl, by simp, Or.inr ⟨rfl, rfl, rfl, rfl⟩, ?_, ?_⟩
    · intro c hc
      simp at hc
      exact Or.inr hc
    · intro lc0 hlc0
      cases hlc0
  | some lc0 =>
    cases hf : lc0.find?
        (fun c => c.leadId == lead.id && !(c.state == "CLOSED" || c.state == "HANDOFF")) with
    | some c₀ =>
      simp only [ConversationService.resolveConversation, Conversation.findActiveByLeadId,
        JsonStore.getAll, JsonStore.read, hf, Prod.mk.injEq] at h
      obtain ⟨hconv, hsys⟩ := h
      subst hconv
      subst hsys
      refine ⟨lc0, sa, rfl, ⟨c₀, List.mem_of_find?_eq_some hf, rfl⟩,
        Or.inl (by simpa using List.mem_of_find?_eq_some hf), ?_, ?_⟩
      · intro c hc
        exact Or.inl (by simpa using hc)
      · intro lc0' hlc0' hnone
        simp only [Conversation.findActiveByLeadId, JsonStore.getAll, JsonStore.read, hf]
          at hnone
        cases hnone
    | none =>
      simp only [ConversationService.resolveConversation, Conversation.findActiveByLeadId,
        JsonStore.getAll, JsonStore.read, hf, Conversation.create, JsonStore.add,
        Prod.mk.injEq] at h
      obtain ⟨hconv, hsys⟩ := h
      subst hconv
      subst hsys
      refine ⟨_, _, rfl, by simp; exact ⟨_, Or.inr rfl, rfl⟩, Or.inr ⟨rfl, rfl, rfl, rfl⟩,
        ?_, ?_⟩
      · intro c hc
        rcases List.mem_append.mp hc with hc' | hc'
        · exact Or.inl (by simpa using hc')
        · exact Or.inr (by simpa using hc')
      · intro lc0' hlc0' _
        have : lc0' = lc0 := by
          simpa using hlc0'.symm
        subst this
        exact ⟨rfl, rfl, rfl, rfl⟩

theorem first_match_unique {α : Type} (P : α → Prop) :
    ∀ (pre : List α) (post pre' post' : List α) (y y' : α),
      pre ++ y :: post = pre' ++ y' :: post' →
      (∀ z ∈ pre, ¬ P z) → P y → (∀ z ∈ pre', ¬ P z) → P y' →
      pre = pre' ∧ y = y' ∧ post = post' := by
  intro pre
  induction pre with
  | nil =>
    intro post pre' post' y y' h _ hy hpre' hy'
    cases pre' with
    | nil =>
      simp only [List.nil_append, List.cons.injEq] at h
      exact ⟨rfl, h.1, h.2⟩
    | cons a pre'' =>
      simp only [List.nil_append, List.cons_append, List.cons.injEq] at h
      exact absurd (h.1 ▸ hy) (hpre' a (by simp))
  | cons a pre₂ ih =>
    intro post pre' post' y y' h hpre hy hpre' hy'
    cases pre' with
    | nil =>
      simp only [List.cons_append, List.nil_append, List.cons.injEq] at h
      exact absurd (h.1.symm ▸ hy') (hpre a (by simp))
    | cons a' pre'' =>
      simp only [List.cons_append, List.cons.injEq] at h
      obtain ⟨rfl, h2⟩ := h
      obtain ⟨he, hy2, hp2⟩ := ih post pre'' post' y y' h2
        (fun z hz => hpre z (by simp [hz])) hy
        (fun z hz => hpre' z (by simp [hz])) hy'
      exact ⟨by rw [he], hy2, hp2⟩

theorem findActive_none_of_terminal (lc0 : List Conv) (lid : Nat)
    (h : ∀ z ∈ lc0, z.leadId = lid → (z.state = "HANDOFF" ∨ z.state = "CLOSED")) :
    (Conversation.findActiveByLeadId ⟨some lc0⟩ lid).1 = none := by
  simp only [Conversation.findActiveByLeadId, JsonStore.getAll, JsonStore.read]
  rw [List.find?_eq_none]
  intro z hz
  by_cases hlid : z.leadId = lid
  · rcases h z hz hlid with h1 | h1 <;> simp [h1, hlid]
  · simp [hlid]

/-- Master resolution lemma: `processMessage` reduces to `processMessageTail`
on a resolved lead/conversation, with both stores existing and carrying the
respective ids, plus the facts the individual claims need about how the
conversation list evolved. -/
theorem processMessage_resolution (env : ConversationService.Env) (now : Nat)
    (detect : String → String) (sender body channel : String)
    (sys : ConversationService.SysState) :
    ∃ (lead : Lead) (conversation : Conv) (ll : List Lead) (lc : List Conv)
      (a : Analytics),
      (∀ (outcome : AIReasoningService.LLMOutcome) (aiPathFails : Bool),
        ConversationService.processMessage env now detect outcome aiPathFails sender body
            channel sys =
          ConversationService.processMessageTail env now outcome aiPathFails body channel
            lead conversation ⟨⟨some ll⟩, ⟨some lc⟩, a⟩) ∧
      (∃ x ∈ ll, x.id = lead.id) ∧
      (∃ x ∈ lc, x.id = conversation.id) ∧
      (conversation ∈ sys.conversations.contents.getD [] ∨
        (conversation.state = "NEW_LEAD" ∧
         conversation.context = ⟨none, ⟨none, none, none⟩, 0, none, none⟩)) ∧
      (∀ P : String → Prop, P "NEW_LEAD" →
        (∀ c ∈ sys.conversations.contents.getD [], P c.state) →
        (∀ c ∈ lc, P c.state) ∧ P conversation.state) ∧
      (∀ lc0, sys.conversations.contents = some lc0 →
        (∀ z ∈ lc0, z.leadId = lead.id → (z.state = "HANDOFF" ∨ z.state = "CLOSED")) →
        (∀ z ∈ lc0, z.id ≠ now) →
        conversation.id = now ∧
        ∃ c', lc = lc0 ++ [c'] ∧ c'.id = now ∧ c'.createdAt = now ∧
          c'.state = "NEW_LEAD") ∧
      (∀ l₀, (LeadModel.findByPhone sys.leads sender).1 = some l₀ → lead = l₀) := by
  rcases hrl : ConversationService.resolveLead now sender channel sys with ⟨lead, sys₁⟩
  obtain ⟨ll₁, a₁, hsys₁, hpresL, hleadeq⟩ :=
    resolveLead_spec now sender channel sys lead sys₁ hrl
  rcases hrc : ConversationService.resolveConversation now channel lead sys₁ with
    ⟨conversation, sys₂⟩
  obtain ⟨lc₂, a₂, hsys₂, hpresC, hmem, hclosure, hframe⟩ :=
    resolveConversation_spec now channel lead sys₁ conversation sys₂ hrc
  obtain ⟨x, hx, hxid⟩ := hpresC
  obtain ⟨pre, y, post, hdecomp, hpre, hyid, heq⟩ :=
    modifyById_rich Conversation.getId [] conversation.id
      (Conversation.addMsgTransform now
        (Conversation.mkMsg now "user" (some body) none (some (detect body))))
      "Conversation not found" lc₂ x hx hxid
  have hconvs₁ : sys₁.conversations = sys.conversations := by rw [hsys₁]
  refine ⟨lead, conversation, ll₁,
    pre ++ Conversation.addMsgTransform now
      (Conversation.mkMsg now "user" (some body) none (some (detect body))) y :: post,
    ConversationService.logMessage a₂ now conversation (some (detect body)) none "inbound",
    ?_, ?_, ?_, ?_, ?_, ?_, hleadeq⟩
  · intro outcome aiPathFails
    unfold ConversationService.processMessage
    rw [hrl]
    simp only
    rw [hrc]
    simp only
    rw [hsys₂]
    simp only [Conversation.addMessage]
    rw [heq]
    simp only [exceptBind_ok]
    rw [hsys₁]
  · simpa [hsys₁] using hpresL
  · exact ⟨Conversation.addMsgTransform now
      (Conversation.mkMsg now "user" (some body) none (some (detect body))) y,
      by simp, hyid⟩
  · rw [← hconvs₁]
    rcases hmem with hm | hm
    · exact Or.inl hm
    · exact Or.inr ⟨hm.1, hm.2.1⟩
  · intro P hnew hold
    have holdc : ∀ c ∈ sys₁.conversations.contents.getD [], P c.state := by
      rw [hconvs₁]; exact hold
    have hPconv : P conversation.state := by
      rcases hmem with hm | hm
      · exact holdc conversation hm
      · rw [hm.1]; exact hnew
    refine ⟨?_, hPconv⟩
    intro c hc
    have hstep : ∀ c ∈ lc₂, P c.state := by
      intro c' hc'
      rcases hclosure c' hc' with h' | h'
      · exact holdc c' h'
      · rw [h']; exact hPconv
    rcases List.mem_append.mp hc with hcpre | hcrest
    · exact hstep c (hdecomp ▸ List.mem_append_left _ hcpre)
    · rcases List.mem_cons.mp hcrest with rfl | hcpost
      · simpa using hstep y (hdecomp ▸ List.mem_append_right _ (by simp))
      · exact hstep c (hdecomp ▸ List.mem_append_right _ (by simp [hcpost]))
  · intro lc0 hlc0 hterm hfresh
    have hfile : sys₁.conversations = ⟨some lc0⟩ := by
      rw [hconvs₁]
      cases hsc : sys.conversations with
      | mk contents => rw [hsc] at hlc0; simp at hlc0; rw [hlc0]
    have hnone : (Conversation.findActiveByLeadId sys₁.conversations lead.id).1 = none := by
      rw [hfile]
      exact findActive_none_of_terminal lc0 lead.id hterm
    obtain ⟨hlceq, hcid, hccreated, hcstate⟩ := hframe lc0 (by rw [hfile]) hnone
    refine ⟨hcid, ?_⟩
    have huniq := first_match_unique (fun z : Conv => z.id = conversation.id)
      pre post lc0 [] y conversation (by rw [← hdecomp, hlceq])
      hpre hyid (fun z hz => by rw [hcid]; exact hfresh z hz) rfl
    obtain ⟨hpreeq, hyeq, hposteq⟩ := huniq
    refine ⟨Conversation.addMsgTransform now
      (Conversation.mkMsg now "user" (some body) none (some (detect body))) y,
      by rw [hpreeq, hposteq], by rw [hyeq]; exact hcid, by simp [hyeq, hccreated],
      by simp [hyeq, hcstate]⟩

/-- The tail of `processMessage` on a handoff-trigger message: the
conversation is handed off with reason `user_requested` and the handoff
template (with the phone substituted) is returned; the oracles are never
consulted. -/
theorem processMessageTail_handoff (env : ConversationService.Env) (now : Nat)
    (outcome : AIReasoningService.LLMOutcome) (aiPathFails : Bool)
    (body channel : String) (lead : Lead) (conversation : Conv)
    (ll : List Lead) (lc : List Conv) (a : Analytics)
    (hpres : ∃ x ∈ lc, x.id = conversation.id)
    (h : shouldHandoff body = true) :
    ∃ lc',
      ConversationService.processMessageTail env now outcome aiPathFails body channel lead
          conversation ⟨⟨some ll⟩, ⟨some lc⟩, a⟩ =
        .ok { response := some (strReplace ConversationService.handoffTemplate "{phone}"
                (orElseS env.twilioPhoneNumber "(contact support)"))
              conversation := some conversation
              lead := some lead
              sys := ⟨⟨some ll⟩, ⟨some lc'⟩,
                ConversationService.logHandoff a now conversation
                  (some "user_requested")⟩ } ∧
      ∃ c ∈ lc', c.state = "HANDOFF" ∧ c.handoffReason = some "user_requested" := by
  obtain ⟨x, hx, hxid⟩ := hpres
  obtain ⟨pre, y, post, hdecomp, hpre, hyid, heq₁⟩ :=
    modifyById_rich Conversation.getId [] conversation.id
      (Conversation.handoffTransform now "user_requested") "Conversation not found"
      lc x hx hxid
  have heq₂ := modifyById_spec Conversation.getId [] conversation.id
    (Conversation.addMsgTransform now (Conversation.mkMsg now "assistant"
      (some (strReplace ConversationService.handoffTemplate "{phone}"
        (orElseS env.twilioPhoneNumber "(contact support)"))) (some 1.0) none))
    "Conversation not found" pre post (Conversation.handoffTransform now "user_requested" y)
    hpre (by simpa using hyid)
  refine ⟨pre ++ Conversation.addMsgTransform now (Conversation.mkMsg now "assistant"
      (some (strReplace ConversationService.handoffTemplate "{phone}"
        (orElseS env.twilioPhoneNumber "(contact support)"))) (some 1.0) none)
      (Conversation.handoffTransform now "user_requested" y) :: post, ?_, ?_⟩
  · simp only [ConversationService.processMessageTail, h, if_true,
      Conversation.handoff, Conversation.addMessage]
    simp only [heq₁, exceptBind_ok, heq₂]
    rfl
  · exact ⟨Conversation.addMsgTransform now (Conversation.mkMsg now "assistant"
      (some (strReplace ConversationService.handoffTemplate "{phone}"
        (orElseS env.twilioPhoneNumber "(contact support)"))) (some 1.0) none)
      (Conversation.handoffTransform now "user_requested" y),
      List.mem_append_right _ (List.mem_cons_self _ _), rfl, rfl⟩

/-- On a handoff-trigger message the tail never consults the oracles. -/
theorem processMessageTail_oracle_indep (env : ConversationService.Env) (now : Nat)
    (o o' : AIReasoningService.LLMOutcome) (b b' : Bool) (body channel : String)
    (lead : Lead) (conversation : Conv) (sys₃ : ConversationService.SysState)
    (h : shouldHandoff body = true) :
    ConversationService.processMessageTail env now o b body channel lead conversation sys₃ =
      ConversationService.processMessageTail env now o' b' body channel lead conversation
        sys₃ := by
  simp only [ConversationService.processMessageTail, h, if_true]

/-! ## C5 — keyword-driven handoff -/

/-- C5: for every incoming message whose lowercased text contains a
`HANDOFF_TRIGGERS` keyword as a substring, `processMessage` puts the
conversation into the HANDOFF state with reason `user_requested` and returns
the handoff template (with the support phone substituted), and the result does
not depend on the LLM/exception oracles — neither the AI nor the template
state machine runs. -/
theorem C5_handoff_keyword (env : ConversationService.Env) (now : Nat)
    (detect : String → String) (outcome : AIReasoningService.LLMOutcome)
    (aiPathFails : Bool) (sender body channel : String)
    (sys : ConversationService.SysState)
    (h : shouldHandoff body = true) :
    (∃ r, ConversationService.processMessage env now detect outcome aiPathFails sender
        body channel sys = .ok r ∧
      r.response = some (strReplace ConversationService.handoffTemplate "{phone}"
        (orElseS env.twilioPhoneNumber "(contact support)")) ∧
      ∃ lc', r.sys.conversations.contents = some lc' ∧
        ∃ c ∈ lc', c.state = "HANDOFF" ∧ c.handoffReason = some "user_requested") ∧
    (∀ (outcome' : AIReasoningService.LLMOutcome) (aiPathFails' : Bool),
      ConversationService.processMessage env now detect outcome' aiPathFails' sender body
          channel sys =
        ConversationService.processMessage env now detect outcome aiPathFails sender body
          channel sys) := by
  obtain ⟨lead, conversation, ll, lc, a, heq, _, hplc, _, _, _, _⟩ :=
    processMessage_resolution env now detect sender body channel sys
  obtain ⟨lc', htail, hmem⟩ := processMessageTail_handoff env now outcome aiPathFails body
    channel lead conversation ll lc a hplc h
  constructor
  · exact ⟨_, by rw [heq outcome aiPathFails, htail], rfl, lc', rfl, hmem⟩
  · intro o' b'
    rw [heq o' b', heq outcome aiPathFails,
      processMessageTail_oracle_indep env now o' outcome b' aiPathFails body channel lead
        conversation _ h]

/-! ### Non-empty responses of every generation path -/

theorem cons_of_head (l : List Char) (c : Char) (h : l.head? = some c) :
    ∃ t, l = c :: t := by
  cases l with
  | nil => cases h
  | cons a t =>
    refine ⟨t, ?_⟩
    have ha : a = c := by simpa using h
    rw [ha]

theorem ne_empty_of_head (s : String) (c : Char) (h : s.toList.head? = some c) :
    s ≠ "" := by
  obtain ⟨t, ht⟩ := cons_of_head _ _ h
  exact toList_cons_ne_empty s c t ht

/-- `strReplace` keeps the head character when the pattern starts elsewhere. -/
theorem strReplace_head_chain (s pat repl : String) (h₀ p₀ : Char)
    (hs : s.toList.head? = some h₀) (hp : pat.toList.head? = some p₀)
    (hne : (p₀ == h₀) = false) :
    (strReplace s pat repl).toList.head? = some h₀ := by
  obtain ⟨t, ht⟩ := cons_of_head _ _ hs
  obtain ⟨pt, hpt⟩ := cons_of_head _ _ hp
  rw [strReplace_head s pat repl h₀ p₀ t pt ht hpt hne]
  rfl

theorem qualifiedReplaced_ne_empty (b l m : String) :
    strReplace (strReplace (strReplace ConversationService.qualifiedTemplate
      "{budget}" b) "{location}" l) "{moveInDate}" m ≠ "" := by
  have h0 : ConversationService.qualifiedTemplate.toList.head? = some 'E' := by decide
  have h1 := strReplace_head_chain ConversationService.qualifiedTemplate "{budget}" b
    'E' '{' h0 (by decide) (by decide)
  have h2 := strReplace_head_chain _ "{location}" l 'E' '{' h1 (by decide) (by decide)
  have h3 := strReplace_head_chain _ "{moveInDate}" m 'E' '{' h2 (by decide) (by decide)
  exact ne_empty_of_head _ 'E' h3

theorem handoffReplaced_ne_empty (x : String) :
    strReplace ConversationService.handoffTemplate "{phone}" x ≠ "" :=
  ne_empty_of_head _ 'I'
    (strReplace_head_chain _ _ x 'I' '{' (by decide) (by decide) (by decide))

theorem viewPropertiesReplaced_ne_empty (x : String) :
    strReplace ConversationService.viewPropertiesTemplate "{properties}" x ≠ "" :=
  ne_empty_of_head _ 'H'
    (strReplace_head_chain _ _ x 'H' '{' (by decide) (by decide) (by decide))

theorem scheduleViewingReplaced_ne_empty (x : String) :
    strReplace ConversationService.scheduleViewingTemplate "{viewingLink}" x ≠ "" :=
  ne_empty_of_head _ 'G'
    (strReplace_head_chain _ _ x 'G' '{' (by decide) (by decide) (by decide))

theorem startApplicationReplaced_ne_empty (x : String) :
    strReplace ConversationService.startApplicationTemplate "{applicationLink}" x ≠ "" :=
  ne_empty_of_head _ 'Y'
    (strReplace_head_chain _ _ x 'Y' '{' (by decide) (by decide) (by decide))

theorem greetingFor_ne_empty (channel : String) :
    ConversationService.greetingFor channel ≠ "" := by
  unfold ConversationService.greetingFor
  split
  · decide
  · split <;> decide

/-- The fallback stub never returns an empty response. -/
theorem generateFallbackResponse_ne_empty (msg : String)
    (context : AIReasoningService.AICtx) :
    (AIReasoningService.generateFallbackResponse msg context).response ≠ "" := by
  unfold AIReasoningService.generateFallbackResponse
  dsimp only
  repeat' split
  all_goals (dsimp only; decide)

/-- `generateResponse` never returns an empty response, whatever the LLM
outcome. -/
theorem generateResponse_ne_empty (msg : String) (context : AIReasoningService.AICtx)
    (outcome : AIReasoningService.LLMOutcome) (threshold : Rat) :
    (AIReasoningService.generateResponse msg context outcome threshold).response ≠ "" := by
  unfold AIReasoningService.generateResponse
  split
  · decide
  · cases outcome with
    | noClient => exact generateFallbackResponse_ne_empty msg context
    | failed => exact generateFallbackResponse_ne_empty msg context
    | ok parsed =>
      dsimp only
      split
      · exact strAppend_ne_empty _ _ (orElseS_ne_empty _ _ (by decide))
      · exact orElseS_ne_empty _ _ (by decide)

/-! ### Totality of the processing paths -/

theorem exceptBind_total {α β : Type} (P : α → Prop) {Q : β → Prop}
    (e : Except String α) (f : α → Except String β)
    (he : ∃ a, e = .ok a ∧ P a)
    (hf : ∀ a, P a → ∃ b, f a = .ok b ∧ Q b) :
    ∃ b, (e >>= f) = .ok b ∧ Q b := by
  obtain ⟨a, ha, hp⟩ := he
  obtain ⟨b, hb, hq⟩ := hf a hp
  exact ⟨b, by rw [ha]; simpa using hb, hq⟩

theorem findById_first (lpre lpost : List Lead) (x : Lead) (id : Nat)
    (hpre : ∀ z ∈ lpre, z.id ≠ id) (hx : x.id = id) :
    LeadModel.findById ⟨some (lpre ++ x :: lpost)⟩ id =
      (some x, ⟨some (lpre ++ x :: lpost)⟩) := by
  have hpre' : ∀ z ∈ lpre, (LeadModel.getId z == id) = false := fun z hz => by
    simpa [LeadModel.getId] using hpre z hz
  have hx' : (LeadModel.getId x == id) = true := by simpa [LeadModel.getId] using hx
  simp [LeadModel.findById, JsonStore.getById, JsonStore.read,
    find?_append_first _ lpre lpost x hpre' hx']

/-- `processWithTemplates` always succeeds with a non-empty response when both
stores carry the respective ids (and the conversation context is one the
engine can produce), leaving the rest of the conversation list untouched. -/
theorem processWithTemplates_total (env : ConversationService.Env) (now : Nat)
    (body : String) (conversation : Conv) (lead : Lead) (channel : String)
    (lpre lpost : List Lead) (xl : Lead) (cpre cpost : List Conv) (xc : Conv)
    (analytics : Analytics)
    (hlpre : ∀ z ∈ lpre, z.id ≠ lead.id) (hxl : xl.id = lead.id)
    (hcpre : ∀ z ∈ cpre, z.id ≠ conversation.id) (hxc : xc.id = conversation.id)
    (hcf : conversation.state = "QUALIFICATION" →
      orElseS conversation.context.currentField "location" = "location" ∨
      orElseS conversation.context.currentField "location" = "moveInDate") :
    ∃ v, ConversationService.processWithTemplates env now body conversation lead channel
        ⟨⟨some (lpre ++ xl :: lpost)⟩, ⟨some (cpre ++ xc :: cpost)⟩, analytics⟩ = .ok v ∧
      ∃ s y', v.1 = some s ∧ s ≠ "" ∧
        v.2.conversations = ⟨some (cpre ++ y' :: cpost)⟩ ∧ y'.id = conversation.id ∧
        (y'.state = xc.state ∨ y'.state = conversation.state ∨
          y'.state ∈ ["GREETING", "QUALIFICATION", "ACTION", "CLOSED", "HANDOFF"]) ∧
        y'.createdAt = xc.createdAt ∧
        ∃ L, v.2.leads = ⟨some L⟩ := by
  by_cases h1 : conversation.state = "NEW_LEAD"
  · have h2 := updateState_spec now conversation.id "GREETING"
      (ConversationService.applyCtxUpdates ⟨none, none⟩) cpre cpost xc hcpre hxc
    have h3 := addMessage_spec now conversation.id "assistant"
      (some (ConversationService.greetingFor channel)) (some 0.8) none cpre cpost
      (Conversation.updateStateTransform now "GREETING"
        (ConversationService.applyCtxUpdates ⟨none, none⟩) xc) hcpre (by simp [hxc])
    exact ⟨_, by simp [ConversationService.processWithTemplates, h1, h2, h3] <;> rfl, _, _,
      rfl, greetingFor_ne_empty channel, rfl, by simp [hxc], by simp, by simp, _, rfl⟩
  by_cases h2 : conversation.state = "GREETING"
  · cases hb : extractBudget body with
    | some b =>
      have hq := updateQualification_spec now lead.id ⟨some b, none, none⟩
        lpre lpost xl hlpre hxl
      have hu := updateState_spec now conversation.id "QUALIFICATION"
        (ConversationService.applyCtxUpdates
          ⟨some (some "location"),
           some ⟨some b, conversation.context.collectedData.location,
             conversation.context.collectedData.moveInDate⟩⟩) cpre cpost xc hcpre hxc
      have ha := addMessage_spec now conversation.id "assistant"
        (some ConversationService.askLocationTemplate) (some 0.8) none cpre cpost
        (Conversation.updateStateTransform now "QUALIFICATION"
          (ConversationService.applyCtxUpdates
            ⟨some (some "location"),
             some ⟨some b, conversation.context.collectedData.location,
               conversation.context.collectedData.moveInDate⟩⟩) xc) hcpre (by simp [hxc])
      exact ⟨_, by simp [ConversationService.processWithTemplates, h1, h2, hb, hq, hu, ha] <;> rfl, _, _, rfl,
        by decide, rfl, by simp [hxc], by simp, by simp, _, rfl⟩
    | none =>
      have ha := addMessage_spec now conversation.id "assistant"
        (some "I didn't catch your budget. Could you tell me how much you're looking to spend on rent per month? (e.g., \"R5000\" or \"around R8000\")")
        (some 0.8) none cpre cpost xc hcpre hxc
      exact ⟨_, by simp [ConversationService.processWithTemplates, h1, h2, hb, ha, ConversationService.CtxUpdates.nonEmptyKeys] <;> rfl, _, _, rfl,
        by decide, rfl, by simp [hxc], by simp, by simp, _, rfl⟩
  by_cases h3 : conversation.state = "QUALIFICATION"
  · rcases hcf h3 with hq1 | hq2
    · cases hloc : extractLocation body with
      | some loc =>
        have hq := updateQualification_spec now lead.id ⟨none, some loc, none⟩
          lpre lpost xl hlpre hxl
        have hu := updateState_spec now conversation.id "QUALIFICATION"
          (ConversationService.applyCtxUpdates
            ⟨some (some "moveInDate"),
             some ⟨conversation.context.collectedData.budget, some loc,
               conversation.context.collectedData.moveInDate⟩⟩) cpre cpost xc hcpre hxc
        have ha := addMessage_spec now conversation.id "assistant"
          (some ConversationService.askMoveInTemplate) (some 0.8) none cpre cpost
          (Conversation.updateStateTransform now "QUALIFICATION"
            (ConversationService.applyCtxUpdates
              ⟨some (some "moveInDate"),
               some ⟨conversation.context.collectedData.budget, some loc,
                 conversation.context.collectedData.moveInDate⟩⟩) xc) hcpre (by simp [hxc])
        exact ⟨_, by simp [ConversationService.processWithTemplates, ConversationService.handleQualification, h1, h2, h3, hq1, hloc, hq, hu, ha, ConversationService.CtxUpdates.nonEmptyKeys] <;> rfl, _, _, rfl,
          by decide, rfl, by simp [hxc], by simp, by simp, _, rfl⟩
      | none =>
        have hu := updateState_spec now conversation.id "QUALIFICATION"
          (ConversationService.applyCtxUpdates
            ⟨none, some conversation.context.collectedData⟩) cpre cpost xc hcpre hxc
        have ha := addMessage_spec now conversation.id "assistant"
          (some "Which area or suburb are you interested in? (e.g., \"Sandton\", \"Cape Town CBD\", \"Pretoria East\")")
          (some 0.8) none cpre cpost
          (Conversation.updateStateTransform now "QUALIFICATION"
            (ConversationService.applyCtxUpdates
              ⟨none, some conversation.context.collectedData⟩) xc) hcpre (by simp [hxc])
        exact ⟨_, by simp [ConversationService.processWithTemplates, ConversationService.handleQualification, h1, h2, h3, hq1, hloc, hu, ha, ConversationService.CtxUpdates.nonEmptyKeys] <;> rfl, _, _, rfl,
          by decide, rfl, by simp [hxc], by simp, by simp, _, rfl⟩
    · cases hmv : extractMoveIn body with
      | some mv =>
        by_cases hmve : mv = ""
        · have hu := updateState_spec now conversation.id "QUALIFICATION"
            (ConversationService.applyCtxUpdates
              ⟨none, some conversation.context.collectedData⟩) cpre cpost xc hcpre hxc
          have ha := addMessage_spec now conversation.id "assistant"
            (some "When are you looking to move in? (e.g., \"February\", \"next month\", \"ASAP\")")
            (some 0.8) none cpre cpost
            (Conversation.updateStateTransform now "QUALIFICATION"
              (ConversationService.applyCtxUpdates
                ⟨none, some conversation.context.collectedData⟩) xc) hcpre (by simp [hxc])
          exact ⟨_, by simp [ConversationService.processWithTemplates, ConversationService.handleQualification, h1, h2, h3, hq2, hmv, hmve, hu, ha, ConversationService.CtxUpdates.nonEmptyKeys] <;> rfl, _, _, rfl,
            by decide, rfl, by simp [hxc], by simp, by simp, _, rfl⟩
        · have hq := updateQualification_spec now lead.id ⟨none, none, some mv⟩
            lpre lpost xl hlpre hxl
          have hu := updateState_spec now conversation.id "ACTION"
            (ConversationService.applyCtxUpdates
              ⟨some none,
               some ⟨conversation.context.collectedData.budget,
                 conversation.context.collectedData.location, some mv⟩⟩) cpre cpost xc
            hcpre hxc
          have ha := addMessage_spec now conversation.id "assistant"
            (some (strReplace (strReplace (strReplace ConversationService.qualifiedTemplate
              "{budget}" (orElseS
                (if truthyS conversation.context.collectedData.budget then
                  conversation.context.collectedData.budget
                 else lead.qualificationData.budget) "Not specified"))
              "{location}" (orElseS conversation.context.collectedData.location
                "Not specified"))
              "{moveInDate}" (orElseS (some mv) "Not specified")))
            (some 0.8) none cpre cpost
            (Conversation.updateStateTransform now "ACTION"
              (ConversationService.applyCtxUpdates
                ⟨some none,
                 some ⟨conversation.context.collectedData.budget,
                   conversation.context.collectedData.location, some mv⟩⟩) xc) hcpre
            (by simp [hxc])
          exact ⟨_, by simp [ConversationService.processWithTemplates, ConversationService.handleQualification, h1, h2, h3, hq2, hmv, hmve, hq, hu, ha, ConversationService.CtxUpdates.nonEmptyKeys] <;> rfl, _, _, rfl,
            qualifiedReplaced_ne_empty _ _ _, rfl, by simp [hxc], by simp, by simp, _, rfl⟩
      | none =>
        have hu := updateState_spec now conversation.id "QUALIFICATION"
          (ConversationService.applyCtxUpdates
            ⟨none, some conversation.context.collectedData⟩) cpre cpost xc hcpre hxc
        have ha := addMessage_spec now conversation.id "assistant"
          (some "When are you looking to move in? (e.g., \"February\", \"next month\", \"ASAP\")")
          (some 0.8) none cpre cpost
          (Conversation.updateStateTransform now "QUALIFICATION"
            (ConversationService.applyCtxUpdates
              ⟨none, some conversation.context.collectedData⟩) xc) hcpre (by simp [hxc])
        exact ⟨_, by simp [ConversationService.processWithTemplates, ConversationService.handleQualification, h1, h2, h3, hq2, hmv, hu, ha, ConversationService.CtxUpdates.nonEmptyKeys] <;> rfl, _, _, rfl,
          by decide, rfl, by simp [hxc], by simp, by simp, _, rfl⟩
  by_cases h4 : conversation.state = "ACTION"
  · by_cases hv : anchoredMatch viewPropertiesWords body = true
    · have ha := addMessage_spec now conversation.id "assistant"
        (some (strReplace ConversationService.viewPropertiesTemplate "{properties}"
          ("🏠 Check our available properties at:\n" ++
            orElseS env.baseUrl "https://rentify-yruw.onrender.com" ++
            "/our-properties.html")))
        (some 0.8) none cpre cpost xc hcpre hxc
      exact ⟨_, by simp [ConversationService.processWithTemplates, ConversationService.handleAction, h1, h2, h3, h4, hv, ha, ConversationService.CtxUpdates.nonEmptyKeys] <;> rfl, _, _, rfl,
        viewPropertiesReplaced_ne_empty _, rfl, by simp [hxc], by simp, by simp, _, rfl⟩
    · by_cases hw : anchoredMatch scheduleViewingWords body = true
      · have ha := addMessage_spec now conversation.id "assistant"
          (some (strReplace ConversationService.scheduleViewingTemplate "{viewingLink}"
            (orElseS env.baseUrl "https://rentify-yruw.onrender.com" ++ "/contact.html")))
          (some 0.8) none cpre cpost xc hcpre hxc
        exact ⟨_, by simp [ConversationService.processWithTemplates, ConversationService.handleAction, h1, h2, h3, h4, hv, hw, ha, ConversationService.CtxUpdates.nonEmptyKeys] <;> rfl, _, _, rfl,
          scheduleViewingReplaced_ne_empty _, rfl, by simp [hxc], by simp, by simp, _, rfl⟩
      · by_cases hx : anchoredMatch startApplicationWords body = true
        · have hu := updateState_spec now conversation.id "CLOSED"
            (ConversationService.applyCtxUpdates ⟨none, none⟩) cpre cpost xc hcpre hxc
          have ha := addMessage_spec now conversation.id "assistant"
            (some (strReplace ConversationService.startApplicationTemplate
              "{applicationLink}"
              (orElseS env.baseUrl "https://rentify-yruw.onrender.com" ++
                "/application.html")))
            (some 0.8) none cpre cpost
            (Conversation.updateStateTransform now "CLOSED"
              (ConversationService.applyCtxUpdates ⟨none, none⟩) xc) hcpre (by simp [hxc])
          exact ⟨_, by simp [ConversationService.processWithTemplates, ConversationService.handleAction, h1, h2, h3, h4, hv, hw, hx, hu, ha, ConversationService.CtxUpdates.nonEmptyKeys] <;> rfl, _, _, rfl,
            startApplicationReplaced_ne_empty _, rfl, by simp [hxc], by simp, by simp, _, rfl⟩
        · have ha := addMessage_spec now conversation.id "assistant"
            (some "Please reply with:\n1️⃣ View properties\n2️⃣ Schedule a viewing\n3️⃣ Start an application\n\nOr type \"human\" to speak with our team.")
            (some 0.8) none cpre cpost xc hcpre hxc
          exact ⟨_, by simp [ConversationService.processWithTemplates, ConversationService.handleAction, h1, h2, h3, h4, hv, hw, hx, ha, ConversationService.CtxUpdates.nonEmptyKeys] <;> rfl, _, _, rfl,
            by decide, rfl, by simp [hxc], by simp, by simp, _, rfl⟩
  · have h2' : ¬("GREETING" = conversation.state) := fun h => h2 h.symm
    have hu := updateState_spec now conversation.id "GREETING"
      (ConversationService.applyCtxUpdates ⟨none, none⟩) cpre cpost xc hcpre hxc
    have ha := addMessage_spec now conversation.id "assistant"
      (some (ConversationService.greetingFor channel)) (some 0.8) none cpre cpost
      (Conversation.updateStateTransform now "GREETING"
        (ConversationService.applyCtxUpdates ⟨none, none⟩) xc) hcpre (by simp [hxc])
    exact ⟨_, by simp [ConversationService.processWithTemplates, h1, h2, h3, h4, h2', hu, ha] <;> rfl, _, _, rfl,
      greetingFor_ne_empty channel, rfl, by simp [hxc], by simp, by simp, _, rfl⟩

/-- Totality of the budget stage: the lead store keeps its first-match shape
and the conversation store is untouched. -/
theorem aiQualBudget_total (now : Nat) (conversation : Conv) (lead : Lead)
    (aiResult : AIReasoningService.AIResult) (sys : ConversationService.SysState)
    (lp lq : List Lead) (x : Lead)
    (hld : sys.leads = ⟨some (lp ++ x :: lq)⟩)
    (hlp : ∀ z ∈ lp, z.id ≠ lead.id) (hx : x.id = lead.id) :
    ∃ a, ConversationService.aiQualBudget now conversation lead aiResult sys = .ok a ∧
      (a.1 = "QUALIFICATION" ∨ a.1 = conversation.state) ∧
      a.2.2.conversations = sys.conversations ∧
      ∃ lp' x' lq', a.2.2.leads = ⟨some (lp' ++ x' :: lq')⟩ ∧
        (∀ z ∈ lp', z.id ≠ lead.id) ∧ x'.id = lead.id := by
  unfold ConversationService.aiQualBudget
  by_cases hbt : truthyS aiResult.extractedData.budget = true
  · have hq := updateQualification_spec now lead.id
      ⟨aiResult.extractedData.budget, none, none⟩ lp lq x hlp hx
    by_cases hgr : conversation.state = "GREETING"
    · exact ⟨_, by rw [hld]; simp [hbt, hgr, hq] <;> rfl, Or.inl rfl, rfl, lp, _, lq, rfl,
        hlp, by simp [hx]⟩
    · exact ⟨_, by rw [hld]; simp [hbt, hgr, hq] <;> rfl, Or.inr rfl, rfl, lp, _, lq, rfl,
        hlp, by simp [hx]⟩
  · exact ⟨_, by simp [hbt] <;> rfl, Or.inr rfl, rfl, lp, x, lq, hld, hlp, hx⟩

/-- Totality of the location stage. -/
theorem aiQualLocation_total (now : Nat) (lead : Lead)
    (aiResult : AIReasoningService.AIResult) (st₁ : String) (ctx₁ : Context)
    (sys₁ : ConversationService.SysState) (lp lq : List Lead) (x : Lead)
    (hld : sys₁.leads = ⟨some (lp ++ x :: lq)⟩)
    (hlp : ∀ z ∈ lp, z.id ≠ lead.id) (hx : x.id = lead.id) :
    ∃ a, ConversationService.aiQualLocation now lead aiResult st₁ ctx₁ sys₁ = .ok a ∧
      a.1 = st₁ ∧ a.2.2.conversations = sys₁.conversations ∧
      ∃ lp' x' lq', a.2.2.leads = ⟨some (lp' ++ x' :: lq')⟩ ∧
        (∀ z ∈ lp', z.id ≠ lead.id) ∧ x'.id = lead.id := by
  unfold ConversationService.aiQualLocation
  by_cases hlt : truthyS aiResult.extractedData.location = true
  · have hq := updateQualification_spec now lead.id
      ⟨none, aiResult.extractedData.location, none⟩ lp lq x hlp hx
    exact ⟨_, by rw [hld]; simp [hlt, hq] <;> rfl, rfl, rfl, lp, _, lq, rfl, hlp,
      by simp [hx]⟩
  · exact ⟨_, by simp [hlt] <;> rfl, rfl, rfl, lp, x, lq, hld, hlp, hx⟩

/-- Totality of the move-in stage: the re-read of the updated lead always
succeeds because the update preserves the id. -/
theorem aiQualMoveIn_total (now : Nat) (lead : Lead)
    (aiResult : AIReasoningService.AIResult) (st₂ : String) (ctx₂ : Context)
    (sys₂ : ConversationService.SysState) (lp lq : List Lead) (x : Lead)
    (hld : sys₂.leads = ⟨some (lp ++ x :: lq)⟩)
    (hlp : ∀ z ∈ lp, z.id ≠ lead.id) (hx : x.id = lead.id) :
    ∃ a, ConversationService.aiQualMoveIn now lead aiResult st₂ ctx₂ sys₂ = .ok a ∧
      (a.1 = "ACTION" ∨ a.1 = st₂) ∧ a.2.2.conversations = sys₂.conversations ∧
      ∃ L, a.2.2.leads = ⟨some L⟩ := by
  unfold ConversationService.aiQualMoveIn
  by_cases hmt : truthyS aiResult.extractedData.moveInDate = true
  · have hq := updateQualification_spec now lead.id
      ⟨none, none, aiResult.extractedData.moveInDate⟩ lp lq x hlp hx
    have hf := findById_first lp lq
      (LeadModel.applyQualUpdates now ⟨none, none, aiResult.extractedData.moveInDate⟩ x)
      lead.id hlp (by simp [hx])
    by_cases hcomp : (LeadModel.applyQualUpdates now
        ⟨none, none, aiResult.extractedData.moveInDate⟩ x).qualificationData.completed =
        true
    · exact ⟨_, by rw [hld]; simp [hmt, hq, hf, hcomp] <;> rfl, Or.inl rfl, rfl, _, rfl⟩
    · exact ⟨_, by rw [hld]; simp [hmt, hq, hf, hcomp] <;> rfl, Or.inr rfl, rfl, _, rfl⟩
  · exact ⟨_, by simp [hmt] <;> rfl, Or.inr rfl, rfl, _, hld⟩

/-- Totality of the finishing stage: state update and reply both land on the
first-match record of the conversation store. -/
theorem aiFinish_total (now : Nat) (conversation : Conv) (lead : Lead)
    (aiResult : AIReasoningService.AIResult) (st₃ : String) (ctx₃ : Context)
    (sys₃ : ConversationService.SysState) (cpre cpost : List Conv) (xc : Conv)
    (hc3 : sys₃.conversations = ⟨some (cpre ++ xc :: cpost)⟩)
    (hcpre : ∀ z ∈ cpre, z.id ≠ conversation.id) (hxc : xc.id = conversation.id) :
    ∃ v, ConversationService.aiFinish now conversation lead aiResult st₃ ctx₃ sys₃ =
        .ok v ∧
      v.1 = some aiResult.response ∧
      ∃ y', v.2.conversations = ⟨some (cpre ++ y' :: cpost)⟩ ∧ y'.id = conversation.id ∧
        (y'.state = "ACTION" ∨ y'.state = st₃) ∧ y'.createdAt = xc.createdAt ∧
        v.2.leads = sys₃.leads := by
  unfold ConversationService.aiFinish
  by_cases hint1 : (aiResult.intent == "view_properties" ||
      aiResult.intent == "schedule_viewing" || aiResult.intent == "apply") = true
  · have hu := updateState_spec now conversation.id "ACTION" (fun _ => ctx₃)
      cpre cpost xc hcpre hxc
    have ha2 := addMessage_spec now conversation.id "assistant" (some aiResult.response)
      (some aiResult.confidence) (some aiResult.intent) cpre cpost
      (Conversation.updateStateTransform now "ACTION" (fun _ => ctx₃) xc) hcpre
      (by simp [hxc])
    by_cases hint2 : (aiResult.intent == "schedule_viewing") = true
    · exact ⟨_, by simp [hint1, hint2, hc3, hu, ha2] <;> rfl, rfl, _, rfl,
        by simp [hxc], by simp, by simp, rfl⟩
    · by_cases hint3 : (aiResult.intent == "apply") = true
      · exact ⟨_, by simp [hint1, hint2, hint3, hc3, hu, ha2] <;> rfl, rfl, _, rfl,
          by simp [hxc], by simp, by simp, rfl⟩
      · have hv1 : (aiResult.intent == "view_properties") = true := by
          simpa [hint2, hint3] using hint1
        exact ⟨_, by simp [hv1, hint2, hint3, hc3, hu, ha2] <;> rfl, rfl, _, rfl,
          by simp [hxc], by simp, by simp, rfl⟩
  · have hu := updateState_spec now conversation.id st₃ (fun _ => ctx₃)
      cpre cpost xc hcpre hxc
    have ha2 := addMessage_spec now conversation.id "assistant" (some aiResult.response)
      (some aiResult.confidence) (some aiResult.intent) cpre cpost
      (Conversation.updateStateTransform now st₃ (fun _ => ctx₃) xc) hcpre
      (by simp [hxc])
    exact ⟨_, by simp [hint1, hc3, hu, ha2] <;> rfl, rfl, _, rfl, by simp [hxc], by simp, by simp, rfl⟩

/-- `processWithAI` always succeeds with a non-empty response when both stores
carry the respective ids: a handoff verdict runs the handoff path, any other
verdict runs the extraction/state-update path, and a thrown AI body falls back
to `processWithTemplates` on channel `sms`. -/
theorem processWithAI_total (env : ConversationService.Env) (now : Nat)
    (body : String) (conversation : Conv) (lead : Lead)
    (outcome : AIReasoningService.LLMOutcome) (aiPathFails : Bool)
    (lpre lpost : List Lead) (xl : Lead) (cpre cpost : List Conv) (xc : Conv)
    (analytics : Analytics)
    (hlpre : ∀ z ∈ lpre, z.id ≠ lead.id) (hxl : xl.id = lead.id)
    (hcpre : ∀ z ∈ cpre, z.id ≠ conversation.id) (hxc : xc.id = conversation.id)
    (hcf : conversation.state = "QUALIFICATION" →
      orElseS conversation.context.currentField "location" = "location" ∨
      orElseS conversation.context.currentField "location" = "moveInDate") :
    ∃ v, ConversationService.processWithAI env now body conversation lead outcome
        aiPathFails
        ⟨⟨some (lpre ++ xl :: lpost)⟩, ⟨some (cpre ++ xc :: cpost)⟩, analytics⟩ = .ok v ∧
      ∃ s y', v.1 = some s ∧ s ≠ "" ∧
        v.2.conversations = ⟨some (cpre ++ y' :: cpost)⟩ ∧ y'.id = conversation.id ∧
        (y'.state = xc.state ∨ y'.state = conversation.state ∨
          y'.state ∈ ["GREETING", "QUALIFICATION", "ACTION", "CLOSED", "HANDOFF"]) ∧
        y'.createdAt = xc.createdAt ∧
        ∃ L, v.2.leads = ⟨some L⟩ := by
  cases aiPathFails with
  | true =>
    obtain ⟨v, hv, post⟩ := processWithTemplates_total env now body conversation lead "sms"
      lpre lpost xl cpre cpost xc analytics hlpre hxl hcpre hxc hcf
    exact ⟨v, by simpa [ConversationService.processWithAI] using hv, post⟩
  | false =>
    by_cases hsh : (AIReasoningService.generateResponse body
        ⟨conversation.state, conversation.messages, conversation.context.collectedData⟩
        outcome env.confidenceThreshold).shouldHandoff = true
    · have h1 := handoff_spec now conversation.id
        (orElseS (AIReasoningService.generateResponse body
          ⟨conversation.state, conversation.messages, conversation.context.collectedData⟩
          outcome env.confidenceThreshold).handoffReason "ai_uncertain") cpre cpost xc
        hcpre hxc
      have h2 := addMessage_spec now conversation.id "assistant"
        (some (AIReasoningService.generateResponse body
          ⟨conversation.state, conversation.messages, conversation.context.collectedData⟩
          outcome env.confidenceThreshold).response)
        (some (AIReasoningService.generateResponse body
          ⟨conversation.state, conversation.messages, conversation.context.collectedData⟩
          outcome env.confidenceThreshold).confidence)
        (some (AIReasoningService.generateResponse body
          ⟨conversation.state, conversation.messages, conversation.context.collectedData⟩
          outcome env.confidenceThreshold).intent) cpre cpost
        (Conversation.handoffTransform now
          (orElseS (AIReasoningService.generateResponse body
            ⟨conversation.state, conversation.messages, conversation.context.collectedData⟩
            outcome env.confidenceThreshold).handoffReason "ai_uncertain") xc) hcpre
        (by simp [hxc])
      exact ⟨_, by simp [ConversationService.processWithAI, hsh, h1, h2] <;> rfl, _, _,
        rfl, generateResponse_ne_empty _ _ _ _, rfl, by simp [hxc], by simp, by simp, _,
        rfl⟩
    · simp only [Bool.not_eq_true] at hsh
      obtain ⟨a1, h1, hst1, hc1, lp1, x1, lq1, hld1, hlp1, hx1⟩ :=
        aiQualBudget_total now conversation lead
          (AIReasoningService.generateResponse body
            ⟨conversation.state, conversation.messages, conversation.context.collectedData⟩
            outcome env.confidenceThreshold)
          ⟨⟨some (lpre ++ xl :: lpost)⟩, ⟨some (cpre ++ xc :: cpost)⟩, analytics⟩
          lpre lpost xl rfl hlpre hxl
      obtain ⟨st₁, ctx₁, sys₁⟩ := a1
      obtain ⟨a2, h2, hst2, hc2, lp2, x2, lq2, hld2, hlp2, hx2⟩ :=
        aiQualLocation_total now lead
          (AIReasoningService.generateResponse body
            ⟨conversation.state, conversation.messages, conversation.context.collectedData⟩
            outcome env.confidenceThreshold) st₁ ctx₁ sys₁ lp1 lq1 x1 hld1 hlp1 hx1
      obtain ⟨st₂, ctx₂, sys₂⟩ := a2
      obtain ⟨a3, h3, hst3, hc3, L3, hld3⟩ :=
        aiQualMoveIn_total now lead
          (AIReasoningService.generateResponse body
            ⟨conversation.state, conversation.messages, conversation.context.collectedData⟩
            outcome env.confidenceThreshold) st₂ ctx₂ sys₂ lp2 lq2 x2 hld2 hlp2 hx2
      obtain ⟨st₃, ctx₃, sys₃⟩ := a3
      have hc3' : sys₃.conversations = ⟨some (cpre ++ xc :: cpost)⟩ := by
        have hc1' : sys₁.conversations = ⟨some (cpre ++ xc :: cpost)⟩ := hc1
        have hc2' : sys₂.conversations = sys₁.conversations := hc2
        have hc3'' : sys₃.conversations = sys₂.conversations := hc3
        rw [hc3'', hc2', hc1']
      obtain ⟨v, hv, hresp, y', hvc, hyid, hyst, hcr, hvl⟩ :=
        aiFinish_total now conversation lead
          (AIReasoningService.generateResponse body
            ⟨conversation.state, conversation.messages, conversation.context.collectedData⟩
            outcome env.confidenceThreshold) st₃ ctx₃ sys₃ cpre cpost xc hc3' hcpre hxc
      refine ⟨v, ?_, (AIReasoningService.generateResponse body
          ⟨conversation.state, conversation.messages, conversation.context.collectedData⟩
          outcome env.confidenceThreshold).response, y', hresp,
        generateResponse_ne_empty _ _ _ _, hvc, hyid, ?_, hcr, L3, ?_⟩
      · simp only [ConversationService.processWithAI, Bool.false_eq_true, if_false, hsh,
          h1, h2, h3]
        exact hv
      · have hst1' : st₁ = "QUALIFICATION" ∨ st₁ = conversation.state := hst1
        have hst2' : st₂ = st₁ := hst2
        have hst3' : st₃ = "ACTION" ∨ st₃ = st₂ := hst3
        rcases hyst with h | h
        · exact Or.inr (Or.inr (by simp [h]))
        · rcases hst3' with h3s | h3s
          · exact Or.inr (Or.inr (by simp [h, h3s]))
          · rcases hst1' with h1s | h1s
            · exact Or.inr (Or.inr (by simp [h, h3s, hst2', h1s]))
            · exact Or.inr (Or.inl (by rw [h, h3s, hst2', h1s]))
      · have hld3' : sys₃.leads = ⟨some L3⟩ := hld3
        have hvl' : v.2.leads = sys₃.leads := hvl
        rw [hvl']
        exact hld3'

/-- The tail of `processMessage` always succeeds with a non-empty response
(when the conversation context is one the engine can produce), and only the
first conversation record carrying the conversation's id is ever rewritten:
the rest of the store survives verbatim, and the rewritten record keeps the id
and takes its state from the old record, the in-memory conversation or one of
the five literal states the engine writes. -/
theorem processMessageTail_total (env : ConversationService.Env) (now : Nat)
    (outcome : AIReasoningService.LLMOutcome) (aiPathFails : Bool)
    (body channel : String) (lead : Lead) (conversation : Conv)
    (ll : List Lead) (lc : List Conv) (a : Analytics)
    (hl : ∃ x ∈ ll, x.id = lead.id) (hc : ∃ x ∈ lc, x.id = conversation.id)
    (hcf : conversation.state = "QUALIFICATION" →
      orElseS conversation.context.currentField "location" = "location" ∨
      orElseS conversation.context.currentField "location" = "moveInDate") :
    ∃ r cpre xc cpost y',
      ConversationService.processMessageTail env now outcome aiPathFails body channel lead
          conversation ⟨⟨some ll⟩, ⟨some lc⟩, a⟩ = .ok r ∧
      (∃ s, r.response = some s ∧ s ≠ "") ∧
      lc = cpre ++ xc :: cpost ∧ (∀ z ∈ cpre, z.id ≠ conversation.id) ∧
      xc.id = conversation.id ∧
      r.sys.conversations.contents = some (cpre ++ y' :: cpost) ∧
      y'.id = conversation.id ∧
      (y'.state = xc.state ∨ y'.state = conversation.state ∨
        y'.state ∈ ["GREETING", "QUALIFICATION", "ACTION", "CLOSED", "HANDOFF"]) ∧
      y'.createdAt = xc.createdAt := by
  obtain ⟨xc0, hxc0, hxc0id⟩ := hc
  obtain ⟨cpre, xc, cpost, hdecomp, hcpre0, hxc⟩ :=
    first_match_decomp (fun z : Conv => z.id == conversation.id) lc xc0 hxc0
      (by simpa using hxc0id)
  have hcpre : ∀ z ∈ cpre, z.id ≠ conversation.id := fun z hz => by simpa using hcpre0 z hz
  have hxcid : xc.id = conversation.id := by simpa using hxc
  obtain ⟨xl0, hxl0, hxl0id⟩ := hl
  obtain ⟨lpre, xl, lpost, hldecomp, hlpre0, hxl⟩ :=
    first_match_decomp (fun z : Lead => z.id == lead.id) ll xl0 hxl0 (by simpa using hxl0id)
  have hlpre : ∀ z ∈ lpre, z.id ≠ lead.id := fun z hz => by simpa using hlpre0 z hz
  have hxlid : xl.id = lead.id := by simpa using hxl
  subst hdecomp
  subst hldecomp
  by_cases hsh : shouldHandoff body = true
  · have h1 := handoff_spec now conversation.id "user_requested" cpre cpost xc hcpre hxcid
    have h2 := addMessage_spec now conversation.id "assistant"
      (some (strReplace ConversationService.handoffTemplate "{phone}"
        (orElseS env.twilioPhoneNumber "(contact support)"))) (some 1.0) none cpre cpost
      (Conversation.handoffTransform now "user_requested" xc) hcpre (by simp [hxcid])
    exact ⟨_, cpre, xc, cpost, _,
      by simp [ConversationService.processMessageTail, hsh, h1, h2] <;> rfl,
      ⟨_, rfl, handoffReplaced_ne_empty _⟩, rfl, hcpre, hxcid, rfl, by simp [hxcid],
      by simp, by simp⟩
  · by_cases hai : env.aiConfigured = true
    · obtain ⟨v, hv, s, y', hs, hne, hvc, hyid, hyst, hcr, L, hvl⟩ :=
        processWithAI_total env now body conversation lead outcome aiPathFails
          lpre lpost xl cpre cpost xc a hlpre hxlid hcpre hxcid hcf
      obtain ⟨resp, sys₄⟩ := v
      have hs' : resp = some s := hs
      have hvc' : sys₄.conversations = ⟨some (cpre ++ y' :: cpost)⟩ := hvc
      have hvl' : sys₄.leads = ⟨some L⟩ := hvl
      subst hs'
      exact ⟨_, cpre, xc, cpost, y',
        by simp [ConversationService.processMessageTail, hsh, hai, hv, hvc', hvl',
          Conversation.findById, LeadModel.findById, JsonStore.getById,
          JsonStore.read] <;> rfl,
        ⟨s, rfl, hne⟩, rfl, hcpre, hxcid, rfl, hyid, hyst, hcr⟩
    · obtain ⟨v, hv, s, y', hs, hne, hvc, hyid, hyst, hcr, L, hvl⟩ :=
        processWithTemplates_total env now body conversation lead channel
          lpre lpost xl cpre cpost xc a hlpre hxlid hcpre hxcid hcf
      obtain ⟨resp, sys₄⟩ := v
      have hs' : resp = some s := hs
      have hvc' : sys₄.conversations = ⟨some (cpre ++ y' :: cpost)⟩ := hvc
      have hvl' : sys₄.leads = ⟨some L⟩ := hvl
      subst hs'
      exact ⟨_, cpre, xc, cpost, y',
        by simp [ConversationService.processMessageTail, hsh, hai, hv, hvc', hvl',
          Conversation.findById, LeadModel.findById, JsonStore.getById,
          JsonStore.read] <;> rfl,
        ⟨s, rfl, hne⟩, rfl, hcpre, hxcid, rfl, hyid, hyst, hcr⟩

/-- With no LLM key configured the tail never consults the LLM/exception
oracles: only the template path (or the handoff short-circuit) runs. -/
theorem processMessageTail_noai_indep (env : ConversationService.Env) (now : Nat)
    (o o' : AIReasoningService.LLMOutcome) (b b' : Bool) (body channel : String)
    (lead : Lead) (conversation : Conv) (sys₃ : ConversationService.SysState)
    (h : env.aiConfigured = false) :
    ConversationService.processMessageTail env now o b body channel lead conversation
        sys₃ =
      ConversationService.processMessageTail env now o' b' body channel lead conversation
        sys₃ := by
  simp only [ConversationService.processMessageTail, h, Bool.false_eq_true, if_false]

/-- When the AI-processing body throws, the tail result does not depend on the
LLM outcome: the catch always falls back to the template path. -/
theorem processMessageTail_fail_indep (env : ConversationService.Env) (now : Nat)
    (o o' : AIReasoningService.LLMOutcome) (body channel : String)
    (lead : Lead) (conversation : Conv) (sys₃ : ConversationService.SysState) :
    ConversationService.processMessageTail env now o true body channel lead conversation
        sys₃ =
      ConversationService.processMessageTail env now o' true body channel lead conversation
        sys₃ := by
  simp only [ConversationService.processMessageTail, ConversationService.processWithAI,
    if_true]

/-! ## C3 — LLM response generation is optional with a total fallback chain -/

/-- C3: for every incoming message (on any store whose conversations carry an
engine-producible `currentField`), `processMessage` succeeds and returns a
non-empty response string, whatever the LLM oracle and the AI-path exception
oracle do; with no LLM key configured (`env.aiConfigured`, the embedding of
`isConfigured()`, is false) the result does not depend on either oracle — the
template path answers; and when the AI path throws (`aiPathFails = true`) the
result does not depend on the LLM outcome — the catch falls back to the
template path. -/
theorem C3_llm_fallback (env : ConversationService.Env) (now : Nat)
    (detect : String → String) (outcome : AIReasoningService.LLMOutcome)
    (aiPathFails : Bool) (sender body channel : String)
    (sys : ConversationService.SysState)
    (hstore : ∀ c ∈ sys.conversations.contents.getD [],
      c.state = "QUALIFICATION" →
        orElseS c.context.currentField "location" = "location" ∨
        orElseS c.context.currentField "location" = "moveInDate") :
    (∃ r s, ConversationService.processMessage env now detect outcome aiPathFails sender
        body channel sys = .ok r ∧ r.response = some s ∧ s ≠ "") ∧
    (env.aiConfigured = false →
      ∀ (outcome' : AIReasoningService.LLMOutcome) (aiPathFails' : Bool),
        ConversationService.processMessage env now detect outcome' aiPathFails' sender
            body channel sys =
          ConversationService.processMessage env now detect outcome aiPathFails sender
            body channel sys) ∧
    (∀ outcome' : AIReasoningService.LLMOutcome,
      ConversationService.processMessage env now detect outcome' true sender body channel
          sys =
        ConversationService.processMessage env now detect outcome true sender body
          channel sys) := by
  obtain ⟨lead, conversation, ll, lc, a, heq, hpresL, hpresC, hmem, _, _, _⟩ :=
    processMessage_resolution env now detect sender body channel sys
  have hcf : conversation.state = "QUALIFICATION" →
      orElseS conversation.context.currentField "location" = "location" ∨
      orElseS conversation.context.currentField "location" = "moveInDate" := by
    rcases hmem with hin | ⟨hnew, _⟩
    · exact hstore conversation hin
    · intro hq
      rw [hnew] at hq
      exact absurd hq (by decide)
  refine ⟨?_, ?_, ?_⟩
  · obtain ⟨r, _, _, _, _, htail, ⟨s, hresp, hne⟩, _⟩ :=
      processMessageTail_total env now outcome aiPathFails body channel lead conversation
        ll lc a hpresL hpresC hcf
    exact ⟨r, s, by rw [heq outcome aiPathFails]; exact htail, hresp, hne⟩
  · intro henv outcome' aiPathFails'
    rw [heq outcome' aiPathFails', heq outcome aiPathFails]
    exact processMessageTail_noai_indep env now outcome' outcome aiPathFails' aiPathFails
      body channel lead conversation _ henv
  · intro outcome'
    rw [heq outcome' true, heq outcome true]
    exact processMessageTail_fail_indep env now outcome' outcome body channel lead
      conversation _

/-- Witness for C3: with the LLM configured and a live AI path, the message
"Hello there" on empty stores gets a non-empty response. -/
theorem C3_llm_fallback_witness :
    ∃ r s, ConversationService.processMessage sampleEnvAI 1 unknownIntent .noClient false
        "+27821234567" "Hello there" "sms" emptySys = .ok r ∧
      r.response = some s ∧ s ≠ "" :=
  (C3_llm_fallback sampleEnvAI 1 unknownIntent .noClient false "+27821234567"
    "Hello there" "sms" emptySys (by decide)).1

/-! ## C8 — terminal states are never left -/

/-- C8: `findActiveByLeadId` never returns a CLOSED or HANDOFF conversation,
so when every conversation of the resolved lead is terminal (and no stored
record collides with the fresh id `Date.now()`), `processMessage` operates on
a newly created conversation: the final store is exactly the old records,
verbatim and in order, plus one appended record whose id and creation time are
`now` — the terminated conversations' state, messages and context are never
modified again. -/
theorem C8_terminal_states (env : ConversationService.Env) (now : Nat)
    (detect : String → String) (outcome : AIReasoningService.LLMOutcome)
    (aiPathFails : Bool) (sender body channel : String)
    (sys : ConversationService.SysState) (lc0 : List Conv) (lead₈ : Lead)
    (hlc : sys.conversations.contents = some lc0)
    (hphone : (LeadModel.findByPhone sys.leads sender).1 = some lead₈)
    (hterm : ∀ z ∈ lc0, z.leadId = lead₈.id → (z.state = "HANDOFF" ∨ z.state = "CLOSED"))
    (hfresh : ∀ z ∈ lc0, z.id ≠ now) :
    (∀ (f : JFile Conv) (lid : Nat) (z : Conv),
      (Conversation.findActiveByLeadId f lid).1 = some z →
      ¬(z.state = "CLOSED" ∨ z.state = "HANDOFF")) ∧
    ∃ r y', ConversationService.processMessage env now detect outcome aiPathFails sender
        body channel sys = .ok r ∧
      r.sys.conversations.contents = some (lc0 ++ [y']) ∧
      y'.id = now ∧ y'.createdAt = now := by
  constructor
  · intro f lid z hz
    have hz' : ((JsonStore.getAll f []).1.find?
        (fun c => c.leadId == lid && !(c.state == "CLOSED" || c.state == "HANDOFF"))) =
        some z := hz
    have hp := List.find?_some hz'
    intro hcontra
    rcases hcontra with h | h <;> simp [h] at hp
  · obtain ⟨lead, conversation, ll, lc, a, heq, hpresL, hpresC, hmem, _, hframe, hlead⟩ :=
      processMessage_resolution env now detect sender body channel sys
    have hleadeq : lead = lead₈ := hlead lead₈ hphone
    subst hleadeq
    obtain ⟨hcid, c', hlceq, hc'id, hc'created, hc'state⟩ := hframe lc0 hlc hterm hfresh
    have hcf : conversation.state = "QUALIFICATION" →
        orElseS conversation.context.currentField "location" = "location" ∨
        orElseS conversation.context.currentField "location" = "moveInDate" := by
      rcases hmem with hin | ⟨hnew, _⟩
      · exfalso
        rw [hlc] at hin
        simp at hin
        exact hfresh conversation hin hcid
      · intro hq
        rw [hnew] at hq
        exact absurd hq (by decide)
    obtain ⟨r, cpre, xc, cpost, y', htail, _, hdecomp, hcpre, hxcid, hfinal, hyid, _,
      hcr⟩ := processMessageTail_total env now outcome aiPathFails body channel lead
        conversation ll lc a hpresL hpresC hcf
    obtain ⟨hpreeq, hxceq, hposteq⟩ :=
      first_match_unique (fun z : Conv => z.id = conversation.id) cpre cpost lc0 [] xc c'
        (by rw [← hdecomp, hlceq]) hcpre hxcid
        (fun z hz => by rw [hcid]; exact hfresh z hz)
        (by show c'.id = conversation.id; rw [hc'id, hcid])
    refine ⟨r, y', by rw [heq outcome aiPathFails]; exact htail, ?_,
      by rw [hyid, hcid], ?_⟩
    · rw [hfinal, hpreeq, hposteq]
    · rw [hcr, hxceq, hc'created]

/-- Witness for C8: a lead whose only conversation is CLOSED gets a brand-new
conversation appended; the closed record survives verbatim. -/
theorem C8_terminal_states_witness :
    ∃ r y', ConversationService.processMessage sampleEnv 2 unknownIntent .noClient false
        "+27821234567" "Hello" "sms"
        ⟨⟨some [sampleLead]⟩, ⟨some [sampleConv "CLOSED"]⟩, emptyAnalytics⟩ = .ok r ∧
      r.sys.conversations.contents = some ([sampleConv "CLOSED"] ++ [y']) ∧
      y'.id = 2 ∧ y'.createdAt = 2 :=
  (C8_terminal_states sampleEnv 2 unknownIntent .noClient false "+27821234567" "Hello"
    "sms" ⟨⟨some [sampleLead]⟩, ⟨some [sampleConv "CLOSED"]⟩, emptyAnalytics⟩
    [sampleConv "CLOSED"] sampleLead rfl (by decide) (by decide) (by decide)).2

/-! ## C1 — the conversation state machine has six states, not four -/

/-- Counterexample to C1: the model's `STATES` set has SIX distinct values,
and all six are realized as the `state` field of records created or updated
through the conversation model (`create`, `updateState` with the states the
service passes, `handoff`), so no four-element state set covers them. -/
theorem C1_four_states_counterexample :
    Conversation.STATES =
      ["NEW_LEAD", "GREETING", "QUALIFICATION", "ACTION", "HANDOFF", "CLOSED"] ∧
    Conversation.STATES.Nodup ∧ Conversation.STATES.length = 6 ∧
    (Conversation.create ⟨some []⟩ 1 7 "sms").1.state = "NEW_LEAD" ∧
    ((Conversation.updateState (Conversation.create ⟨some []⟩ 1 7 "sms").2 2 1 "GREETING"
        (fun c => c)).map (fun p => p.1.state)) = .ok "GREETING" ∧
    ((Conversation.updateState (Conversation.create ⟨some []⟩ 1 7 "sms").2 2 1
        "QUALIFICATION" (fun c => c)).map (fun p => p.1.state)) = .ok "QUALIFICATION" ∧
    ((Conversation.updateState (Conversation.create ⟨some []⟩ 1 7 "sms").2 2 1 "ACTION"
        (fun c => c)).map (fun p => p.1.state)) = .ok "ACTION" ∧
    ((Conversation.updateState (Conversation.create ⟨some []⟩ 1 7 "sms").2 2 1 "CLOSED"
        (fun c => c)).map (fun p => p.1.state)) = .ok "CLOSED" ∧
    ((Conversation.handoff (Conversation.create ⟨some []⟩ 1 7 "sms").2 2 1
        "user_requested").map (fun p => p.1.state)) = .ok "HANDOFF" ∧
    ∀ S : Finset String, (∀ st ∈ Conversation.STATES, st ∈ S) → S.card ≠ 4 := by
  refine ⟨rfl, by decide, by decide, by decide, rfl, rfl, rfl, rfl, rfl, ?_⟩
  intro S h
  have hsub : ({"NEW_LEAD", "GREETING", "QUALIFICATION", "ACTION", "HANDOFF", "CLOSED"} :
      Finset String) ⊆ S := by
    intro x hx
    simp only [Finset.mem_insert, Finset.mem_singleton] at hx
    rcases hx with rfl | rfl | rfl | rfl | rfl | rfl <;> exact h _ (by decide)
  have hcard := Finset.card_le_card hsub
  have h6 : ({"NEW_LEAD", "GREETING", "QUALIFICATION", "ACTION", "HANDOFF", "CLOSED"} :
      Finset String).card = 6 := by decide
  rw [h6] at hcard
  omega

/-- C1 (amended): the conversation state machine has exactly six states: the
model's `STATES` set holds six distinct values, every record the model creates
starts in one of them, and message processing keeps every stored conversation's
state inside the six (on any store already inside the six with
engine-producible contexts). -/
theorem C1_six_state_machine (env : ConversationService.Env) (now : Nat)
    (detect : String → String) (outcome : AIReasoningService.LLMOutcome)
    (aiPathFails : Bool) (sender body channel : String)
    (sys : ConversationService.SysState)
    (hstates : ∀ c ∈ sys.conversations.contents.getD [],
      c.state ∈ Conversation.STATES)
    (hstore : ∀ c ∈ sys.conversations.contents.getD [],
      c.state = "QUALIFICATION" →
        orElseS c.context.currentField "location" = "location" ∨
        orElseS c.context.currentField "location" = "moveInDate") :
    Conversation.STATES.Nodup ∧ Conversation.STATES.length = 6 ∧
    (∀ (f : JFile Conv) (now' lid : Nat) (ch : String),
      (Conversation.create f now' lid ch).1.state ∈ Conversation.STATES) ∧
    ∃ r, ConversationService.processMessage env now detect outcome aiPathFails sender body
        channel sys = .ok r ∧
      ∀ c ∈ r.sys.conversations.contents.getD [], c.state ∈ Conversation.STATES := by
  refine ⟨by decide, by decide, ?_, ?_⟩
  · intro f now' lid ch
    obtain ⟨c⟩ := f
    cases c <;> exact (by decide : "NEW_LEAD" ∈ Conversation.STATES)
  · obtain ⟨lead, conversation, ll, lc, a, heq, hpresL, hpresC, hmem, hP, _, _⟩ :=
      processMessage_resolution env now detect sender body channel sys
    have hcf : conversation.state = "QUALIFICATION" →
        orElseS conversation.context.currentField "location" = "location" ∨
        orElseS conversation.context.currentField "location" = "moveInDate" := by
      rcases hmem with hin | ⟨hnew, _⟩
      · exact hstore conversation hin
      · intro hq
        rw [hnew] at hq
        exact absurd hq (by decide)
    obtain ⟨r, cpre, xc, cpost, y', htail, _, hdecomp, hcpre, hxcid, hfinal, hyid, hyst,
      _⟩ := processMessageTail_total env now outcome aiPathFails body channel lead
        conversation ll lc a hpresL hpresC hcf
    refine ⟨r, by rw [heq outcome aiPathFails]; exact htail, ?_⟩
    intro c hc
    rw [hfinal] at hc
    simp only [Option.getD_some] at hc
    have hPc := hP (fun st => st ∈ Conversation.STATES) (by decide) hstates
    rcases List.mem_append.mp hc with hpre | hrest
    · exact hPc.1 c (hdecomp ▸ List.mem_append_left _ hpre)
    · rcases List.mem_cons.mp hrest with rfl | hpost
      · rcases hyst with h | h | h
        · rw [h]
          exact hPc.1 xc (hdecomp ▸ List.mem_append_right _ (List.mem_cons_self _ _))
        · rw [h]
          exact hPc.2
        · have hlit : ∀ st ∈ (["GREETING", "QUALIFICATION", "ACTION", "CLOSED",
              "HANDOFF"] : List String), st ∈ Conversation.STATES := by decide
          exact hlit _ h
      · exact hPc.1 c (hdecomp ▸ List.mem_append_right _ (List.mem_cons_of_mem _ hpost))

/-- Witness for the amended C1 on concrete inputs. -/
theorem C1_six_state_machine_witness :
    Conversation.STATES.Nodup ∧ Conversation.STATES.length = 6 ∧
    (∀ (f : JFile Conv) (now' lid : Nat) (ch : String),
      (Conversation.create f now' lid ch).1.state ∈ Conversation.STATES) ∧
    ∃ r, ConversationService.processMessage sampleEnv 1 unknownIntent .noClient false
        "+27821234567" "Hi" "sms" emptySys = .ok r ∧
      ∀ c ∈ r.sys.conversations.contents.getD [], c.state ∈ Conversation.STATES :=
  C1_six_state_machine sampleEnv 1 unknownIntent .noClient false "+27821234567" "Hi" "sms"
    emptySys (by decide) (by decide)

/-- Witness for C5: the message "I want a human" on empty stores. -/
theorem C5_handoff_keyword_witness :
    shouldHandoff "I want a human" = true ∧
    ∃ r, ConversationService.processMessage sampleEnv 1 unknownIntent .noClient false
        "+27821234567" "I want a human" "sms" emptySys = .ok r ∧
      r.response = some (strReplace ConversationService.handoffTemplate "{phone}"
        (orElseS sampleEnv.twilioPhoneNumber "(contact support)")) ∧
      ∃ lc', r.sys.conversations.contents = some lc' ∧
        ∃ c ∈ lc', c.state = "HANDOFF" ∧ c.handoffReason = some "user_requested" :=
  ⟨by decide,
   (C5_handoff_keyword sampleEnv 1 unknownIntent .noClient false "+27821234567"
     "I want a human" "sms" emptySys (by decide)).1⟩

end Rentify
